import Mathlib

/-!
NRF24L01 driver: shallow embedding of `nrf24l01.c`.

The driver talks to the radio through three collaborators supplied by the
platform: a full-duplex byte exchange (`_spi_write_byte`, a global function
pointer), the select line (`NRF24L01_CS_LOW/HIGH`) and the enable line
(`NRF24L01_EN_LOW/HIGH`).  The embedding threads an explicit state `Dev`
through every function.  `Dev` records the level of both lines, the ordered
trace of pin events and transmitted bytes, and an oracle giving the byte the
device answers to the `k`-th exchange.

Machine integers are natural numbers with explicit reduction: `% 256` for
`uint8_t`, `% 65536` for `uint16_t`, `% 2^32` for `uint32_t`.  Loops whose
termination depends on a build constant take a fuel argument and return
`none` when the fuel runs out.
-/

namespace NRF24L01

/-! ## Data model -/

/-- One observable action of the driver on the pins or on the bus. -/
inductive Ev
  | csLow
  | csHigh
  | enLow
  | enHigh
  | tx (b : Nat)
  deriving DecidableEq, Repr

/-- Build-time constants and switches that `nrf24l01.h` and the compiler
command line provide: the two `#ifdef` switches, the packet size and the
bound of the transmit wait loop. -/
structure Build where
  USE_IT : Bool
  USE_ACK : Bool
  PACKET_SIZE : Nat
  MAX_TIMEOUT : Nat
  deriving DecidableEq, Repr

/-- Modelled from the spec: the result codes `NRF24L01_CODE_DONE`,
`NRF24L01_CODE_FAILED` and `NRF24L01_CODE_TIMEOUT` are declared in the header
`nrf24l01.h`; the spec calls them distinct enumerated outcomes. -/
inductive Code
  | DONE
  | FAILED
  | TIMEOUT
  deriving DecidableEq, Repr

/-- Driver globals together with the observable environment.
`spi` is the global `_spi_write_byte`: `spi k` is the byte the device
answers to the `k`-th exchange since power-up.  `it_flag j` is what the
`j`-th evaluation of `NRF24L01_Check_IT_Flag()` yields. -/
structure Dev where
  cs : Bool
  en : Bool
  k : Nat
  itk : Nat
  trace : List Ev
  addr_prefix : Nat
  spi : Nat → Nat
  it_flag : Nat → Nat

/-- The fields of `NRF24L01_InitTypeDef` that `NRF24L01_Init` reads. -/
structure InitTypeDef where
  networkId : Nat
  channelOffset : Nat
  transferSpeed : Nat
  transferPower : Nat
  retryDelay : Nat
  retryTimes : Nat
  writeDataCallBk : Nat → Nat

/-! ## Register map and opcodes (the `#define`s of `nrf24l01.c`) -/

def NRF24L01_CONFIG_REG : Nat := 0x00
def NRF24L01_CONFIG_IT_RX_EN : Nat := 0x00
def NRF24L01_CONFIG_IT_RX_DIS : Nat := 0x40
def NRF24L01_CONFIG_IT_TX_EN : Nat := 0x00
def NRF24L01_CONFIG_IT_TX_DIS : Nat := 0x20
def NRF24L01_CONFIG_IT_MAX_RT_EN : Nat := 0x00
def NRF24L01_CONFIG_IT_MAX_RT_DIS : Nat := 0x10
def NRF24L01_CONFIG_CRC_EN : Nat := 0x08
def NRF24L01_CONFIG_CRC_LEN_2BYTE : Nat := 0x04
def NRF24L01_CONFIG_PWR_EN : Nat := 0x02
def NRF24L01_CONFIG_MODE_TX : Nat := 0x00
def NRF24L01_CONFIG_MODE_RX : Nat := 0x01
def NRF24L01_CONFIG_MODE_MASK : Nat := 0x01
def NRF24L01_AUTO_ACK_REG : Nat := 0x01
def NRF24L01_RX_PIPE_EN_REG : Nat := 0x02
def NRF24L01_ADDR_WIDTH_REG : Nat := 0x03
def NRF24L01_ADDR_WIDTH_5BYTE : Nat := 0x03
def NRF24L01_RETRY_CONFIG_REG : Nat := 0x04
def NRF24L01_RF_CHANNAL_REG : Nat := 0x05
def NRF24L01_RF_CONFIG_REG : Nat := 0x06
def NRF24L01_STATUS_REG : Nat := 0x07
def NRF24L01_STATUS_RX_DAT_READY : Nat := 0x40
def NRF24L01_STATUS_TX_SEND_DONE : Nat := 0x20
def NRF24L01_STATUS_TX_MAX_RETRY : Nat := 0x10
def NRF24L01_STATUS_TX_SEND_DONE_OR_FAILED_MASK : Nat := 0x30
def NRF24L01_STATUS_RX_PIPE_NUMBER : Nat := 0x0E
def NRF24L01_SIGNAL_STRENGTH_REG : Nat := 0x09
def NRF24L01_RX_PIPEx_ADDR_REG (x : Nat) : Nat := 0x0A + x
def NRF24L01_RX_PIPEx_WIDTH_REG (x : Nat) : Nat := 0x11 + x
def NRF24L01_TX_ADDR_REG : Nat := 0x10
def _WR_OFFSET : Nat := 0x20
def _CMD_FLUSH_TX : Nat := 0xE1
def _CMD_FLUSH_RX : Nat := 0xE2
def _CMD_NOP : Nat := 0xFF
def _FIFO_WRITE_ADDR : Nat := 0xA0
def _FIFO_READ_ADDR : Nat := 0x61
def ADDR_FIXED_PREFIX : Nat := 0xe7

/-! ## Platform collaborators -/

/-- Modelled from the spec: `NRF24L01_CS_LOW()` is a platform macro of the
header; the spec's `selectAssert()` drives the select line low. -/
def NRF24L01_CS_LOW (d : Dev) : Dev :=
  { d with cs := false, trace := d.trace ++ [Ev.csLow] }

/-- Modelled from the spec: `NRF24L01_CS_HIGH()` is a platform macro of the
header; the spec's `selectDeassert()` drives the select line high. -/
def NRF24L01_CS_HIGH (d : Dev) : Dev :=
  { d with cs := true, trace := d.trace ++ [Ev.csHigh] }

/-- Modelled from the spec: `NRF24L01_EN_LOW()` is a platform macro of the
header; the spec's `deviceEnableLow()` drives the enable line low. -/
def NRF24L01_EN_LOW (d : Dev) : Dev :=
  { d with en := false, trace := d.trace ++ [Ev.enLow] }

/-- Modelled from the spec: `NRF24L01_EN_HIGH()` is a platform macro of the
header; the spec's `deviceEnableHigh()` drives the enable line high. -/
def NRF24L01_EN_HIGH (d : Dev) : Dev :=
  { d with en := true, trace := d.trace ++ [Ev.enHigh] }

/-- Modelled from the spec: `NRF24L01_Check_IT_Flag()` is a platform macro of
the header; the spec's `pollCompletionFlag()` reads an externally latched
flag.  The `j`-th read yields `it_flag j`. -/
def NRF24L01_Check_IT_Flag (d : Dev) : Nat × Dev :=
  (d.it_flag d.itk, { d with itk := d.itk + 1 })

/-- One call through the global function pointer `_spi_write_byte`: the
argument is converted to `uint8_t`, put on the bus, and the device's answer
(a `uint8_t`) is returned. -/
def _spi_write_byte (b : Nat) (d : Dev) : Nat × Dev :=
  (d.spi d.k % 256, { d with k := d.k + 1, trace := d.trace ++ [Ev.tx (b % 256)] })

/-! ## Register access helpers -/

def _WriteCmd (cmd : Nat) (d : Dev) : Nat × Dev :=
  let cmd := cmd % 256
  let d := NRF24L01_CS_LOW d
  let r := _spi_write_byte cmd d
  let res := r.1
  let d := NRF24L01_CS_HIGH r.2
  (res, d)

def _WriteReg (addr dat : Nat) (d : Dev) : Dev :=
  let addr := addr % 256
  let dat := dat % 256
  let d := NRF24L01_CS_LOW d
  let d := (_spi_write_byte (_WR_OFFSET ||| addr) d).2
  let d := (_spi_write_byte dat d).2
  NRF24L01_CS_HIGH d

def _ReadReg (addr : Nat) (d : Dev) : Nat × Dev :=
  let addr := addr % 256
  let d := NRF24L01_CS_LOW d
  let d := (_spi_write_byte addr d).2
  let r := _spi_write_byte 0 d
  let dat := r.1
  let d := NRF24L01_CS_HIGH r.2
  (dat, d)

/-! ## `NRF24L01_Init` -/

/-- The value `tmp` that `NRF24L01_Init` composes for the config register,
one branch per `#ifdef NRF24L01_USE_IT` arm. -/
def Init_tmp (b : Build) : Nat :=
  if b.USE_IT then
    (NRF24L01_CONFIG_IT_RX_EN ||| NRF24L01_CONFIG_IT_TX_EN ||| NRF24L01_CONFIG_IT_MAX_RT_EN |||
      NRF24L01_CONFIG_CRC_LEN_2BYTE ||| NRF24L01_CONFIG_CRC_EN |||
      NRF24L01_CONFIG_PWR_EN) % 256
  else
    (NRF24L01_CONFIG_IT_RX_DIS ||| NRF24L01_CONFIG_IT_TX_DIS ||| NRF24L01_CONFIG_IT_MAX_RT_DIS |||
      NRF24L01_CONFIG_CRC_LEN_2BYTE ||| NRF24L01_CONFIG_CRC_EN |||
      NRF24L01_CONFIG_PWR_EN) % 256

/-- The loop `for (i = 0; i < 6; i++) _WriteReg(NRF24L01_RX_PIPEx_WIDTH_REG(i),
NRF24L01_PACKET_SIZE);` of `NRF24L01_Init`. -/
def Init_widthLoop (b : Build) (d : Dev) : Dev :=
  (List.range 6).foldl
    (fun d i => _WriteReg (NRF24L01_RX_PIPEx_WIDTH_REG i) b.PACKET_SIZE d) d

def NRF24L01_Init (b : Build) (configInfo : InitTypeDef) (d : Dev) :
    Code × InitTypeDef × Dev :=
  let d := { d with spi := configInfo.writeDataCallBk }
  let d := { d with addr_prefix := ((configInfo.networkId % 2 ^ 32) <<< 16) % 2 ^ 32 }
  let configInfo := { configInfo with retryDelay := configInfo.retryDelay &&& 0x0f }
  let configInfo := { configInfo with retryTimes := configInfo.retryTimes &&& 0x0f }
  let d := NRF24L01_CS_HIGH d
  let d := NRF24L01_EN_LOW d
  let tmp := Init_tmp b
  let d := _WriteReg NRF24L01_CONFIG_REG tmp d
  let d := _WriteReg NRF24L01_ADDR_WIDTH_REG NRF24L01_ADDR_WIDTH_5BYTE d
  let d := _WriteReg NRF24L01_AUTO_ACK_REG 0x00 d
  let d := _WriteReg NRF24L01_RX_PIPE_EN_REG 0x00 d
  let d := _WriteReg NRF24L01_RETRY_CONFIG_REG
    ((configInfo.retryDelay <<< 4) ||| configInfo.retryTimes) d
  let d := _WriteReg NRF24L01_RF_CHANNAL_REG configInfo.channelOffset d
  let d := _WriteReg NRF24L01_RF_CONFIG_REG
    (configInfo.transferSpeed ||| configInfo.transferPower) d
  let d := Init_widthLoop b d
  let d := (_WriteCmd _CMD_FLUSH_RX d).2
  let d := (_WriteCmd _CMD_FLUSH_TX d).2
  let r := _ReadReg NRF24L01_CONFIG_REG d
  if r.1 = tmp then
    (Code.DONE, configInfo, r.2)
  else
    (Code.FAILED, configInfo, r.2)

/-! ## RSSI, addressing, pipes and mode -/

def NRF24L01_GetRSSI (d : Dev) : Nat × Dev :=
  _ReadReg NRF24L01_SIGNAL_STRENGTH_REG d

def NRF24L01_Tx_SetTargetAddr (_addr : Nat) (d : Dev) : Dev :=
  let _addr := _addr % 65536
  let addr := d.addr_prefix ||| _addr
  let d := NRF24L01_CS_LOW d
  let d := (_spi_write_byte (_WR_OFFSET + NRF24L01_TX_ADDR_REG) d).2
  let d := (_spi_write_byte addr d).2
  let addr := addr >>> 8
  let d := (_spi_write_byte addr d).2
  let addr := addr >>> 8
  let d := (_spi_write_byte addr d).2
  let addr := addr >>> 8
  let d := (_spi_write_byte addr d).2
  let d := (_spi_write_byte ADDR_FIXED_PREFIX d).2
  NRF24L01_CS_HIGH d

def NRF24L01_Rx_SetPipeAddr (pipe_x _addr : Nat) (d : Dev) : Dev :=
  let pipe_x := pipe_x % 256
  let _addr := _addr % 65536
  let addr := d.addr_prefix ||| _addr
  if pipe_x < 2 then
    let d := NRF24L01_CS_LOW d
    let d := (_spi_write_byte (_WR_OFFSET + NRF24L01_RX_PIPEx_ADDR_REG pipe_x) d).2
    let d := (_spi_write_byte addr d).2
    let addr := addr >>> 8
    let d := (_spi_write_byte addr d).2
    let addr := addr >>> 8
    let d := (_spi_write_byte addr d).2
    let addr := addr >>> 8
    let d := (_spi_write_byte addr d).2
    let d := (_spi_write_byte ADDR_FIXED_PREFIX d).2
    NRF24L01_CS_HIGH d
  else
    _WriteReg (NRF24L01_RX_PIPEx_ADDR_REG pipe_x) _addr d

/-- The expression `state ? ((1 << pipe_x) | oldConfig) :
((~(1 << pipe_x)) & oldConfig)` stored back into a `uint8_t`; `~` is the
complement of a 32-bit `int`. -/
def pipeBit (pipe_x state oldConfig : Nat) : Nat :=
  if state ≠ 0 then
    ((1 <<< pipe_x) ||| oldConfig) % 256
  else
    ((0xFFFFFFFF ^^^ (1 <<< pipe_x)) &&& oldConfig) % 256

def NRF24L01_Rx_PipeCmd (b : Build) (pipe_x state : Nat) (d : Dev) : Dev :=
  let pipe_x := pipe_x % 256
  let state := state % 256
  let d :=
    if b.USE_ACK then
      let r := _ReadReg NRF24L01_AUTO_ACK_REG d
      let oldConfig := pipeBit pipe_x state r.1
      _WriteReg NRF24L01_AUTO_ACK_REG oldConfig r.2
    else d
  let r := _ReadReg NRF24L01_RX_PIPE_EN_REG d
  let oldConfig := pipeBit pipe_x state r.1
  _WriteReg NRF24L01_RX_PIPE_EN_REG oldConfig r.2

def NRF24L01_SwitchMode (b : Build) (_mode addr : Nat) (d : Dev) : Dev :=
  let _mode := _mode % 256
  let addr := addr % 65536
  let d := NRF24L01_EN_LOW d
  let r := _ReadReg NRF24L01_CONFIG_REG d
  let oldMode := r.1
  let d := r.2
  let d :=
    if b.USE_ACK then
      NRF24L01_Rx_PipeCmd b 0 1 (NRF24L01_Rx_SetPipeAddr 0 addr d)
    else d
  if oldMode &&& NRF24L01_CONFIG_MODE_MASK = _mode then
    if _mode = NRF24L01_CONFIG_MODE_TX then
      NRF24L01_Tx_SetTargetAddr addr d
    else d
  else if _mode = NRF24L01_CONFIG_MODE_TX then
    let d := if b.USE_ACK then d else NRF24L01_Rx_PipeCmd b 0 0 d
    let d := NRF24L01_Tx_SetTargetAddr addr d
    _WriteReg NRF24L01_CONFIG_REG (oldMode &&& 0xFE) d
  else
    let d := if b.USE_ACK then d else NRF24L01_Rx_PipeCmd b 0 1 d
    let d := _WriteReg NRF24L01_CONFIG_REG (oldMode ||| NRF24L01_CONFIG_MODE_RX) d
    let d := (_WriteCmd _CMD_FLUSH_RX d).2
    NRF24L01_EN_HIGH d

/-! ## `NRF24L01_SendPacket` -/

/-- The loop `for (tmp = 0; tmp < NRF24L01_PACKET_SIZE; tmp++)
_spi_write_byte(buffer[tmp]);` with its `uint8_t` counter. -/
def txLoop (PS : Nat) (buffer : List Nat) : Nat → Nat → Dev → Option Dev
  | 0, _, _ => none
  | fuel + 1, tmp, d =>
    if tmp < PS then
      txLoop PS buffer fuel ((tmp + 1) % 256) (_spi_write_byte (buffer.getD tmp 0) d).2
    else
      some d

/-- The controlling expression of the wait loop: `NRF24L01_Check_IT_Flag() == 0`
under `NRF24L01_USE_IT`, otherwise
`(_WriteCmd(_CMD_NOP) & NRF24L01_STATUS_TX_SEND_DONE_OR_FAILED_MASK) == 0`. -/
def waitCond (b : Build) (d : Dev) : Bool × Dev :=
  if b.USE_IT then
    let r := NRF24L01_Check_IT_Flag d
    (decide (r.1 = 0), r.2)
  else
    let r := _WriteCmd _CMD_NOP d
    (decide (r.1 &&& NRF24L01_STATUS_TX_SEND_DONE_OR_FAILED_MASK = 0), r.2)

/-- The wait loop of `NRF24L01_SendPacket` with its `uint16_t` counter
`timeout`.  The result is `some (some c, d)` when the body returned `c` from
the function, and `some (none, d)` when the loop was left normally. -/
def waitLoop (b : Build) : Nat → Nat → Dev → Option (Option Code × Dev)
  | 0, _, _ => none
  | fuel + 1, timeout, d =>
    let c := waitCond b d
    if c.1 then
      let timeout := (timeout + 1) % 65536
      if timeout ≥ b.MAX_TIMEOUT then
        let d := NRF24L01_EN_LOW c.2
        let r := _WriteCmd _CMD_NOP d
        let d := _WriteReg NRF24L01_STATUS_REG r.1 r.2
        let d := (_WriteCmd _CMD_FLUSH_TX d).2
        some (some Code.TIMEOUT, d)
      else
        waitLoop b fuel timeout c.2
    else
      some (none, c.2)

def NRF24L01_SendPacket (b : Build) (buffer : List Nat) (fuel : Nat) (d : Dev) :
    Option (Code × Dev) :=
  let timeout := 0
  let d := NRF24L01_EN_LOW d
  let d := NRF24L01_CS_LOW d
  let d := (_spi_write_byte _FIFO_WRITE_ADDR d).2
  match txLoop b.PACKET_SIZE buffer fuel 0 d with
  | none => none
  | some d =>
    let d := NRF24L01_CS_HIGH d
    let d := NRF24L01_EN_HIGH d
    match waitLoop b fuel timeout d with
    | none => none
    | some (some c, d) => some (c, d)
    | some (none, d) =>
      let d := NRF24L01_EN_LOW d
      let r := _WriteCmd _CMD_NOP d
      let tmp := r.1
      let d := _WriteReg NRF24L01_STATUS_REG tmp r.2
      let d := (_WriteCmd _CMD_FLUSH_TX d).2
      if tmp &&& NRF24L01_STATUS_TX_SEND_DONE ≠ 0 then
        some (Code.DONE, d)
      else
        some (Code.FAILED, d)

/-! ## `NRF24L01_ReceivePacket` -/

/-- The loop `for (tmp = 0; tmp < NRF24L01_PACKET_SIZE; tmp++)
buffer[tmp] = _spi_write_byte(0);` with its `uint8_t` counter. -/
def rxLoop (PS : Nat) : Nat → Nat → List Nat → Dev → Option (List Nat × Dev)
  | 0, _, _, _ => none
  | fuel + 1, tmp, buffer, d =>
    if tmp < PS then
      let r := _spi_write_byte 0 d
      rxLoop PS fuel ((tmp + 1) % 256) (buffer.set tmp r.1) r.2
    else
      some (buffer, d)

def NRF24L01_ReceivePacket (b : Build) (buffer : List Nat) (fuel : Nat) (d : Dev) :
    Option (Int × List Nat × Dev) :=
  let r := _WriteCmd _CMD_NOP d
  let tmp := r.1
  let d := _WriteReg NRF24L01_STATUS_REG tmp r.2
  if tmp &&& NRF24L01_STATUS_RX_DAT_READY ≠ 0 then
    let pipex := (tmp &&& NRF24L01_STATUS_RX_PIPE_NUMBER) >>> 1
    if pipex < 6 then
      let d := NRF24L01_CS_LOW d
      let d := (_spi_write_byte _FIFO_READ_ADDR d).2
      match rxLoop b.PACKET_SIZE fuel 0 buffer d with
      | none => none
      | some (buffer, d) =>
        let d := NRF24L01_CS_HIGH d
        let d := (_WriteCmd _CMD_FLUSH_RX d).2
        some ((pipex : Int), buffer, d)
    else
      let d := (_WriteCmd _CMD_FLUSH_RX d).2
      some (-1, buffer, d)
  else
    some (-1, buffer, d)

/-! ## Vocabulary for stating properties of traces -/

/-- A select-scoped transaction: select low, the bytes in order, select high. -/
def txn (bytes : List Nat) : List Ev :=
  Ev.csLow :: (bytes.map Ev.tx ++ [Ev.csHigh])

/-- The buffer after `n` reads into positions `tmp, tmp + 1, ...`, the first
of them answered by exchange number `k`. -/
def rxFill (spi : Nat → Nat) : Nat → Nat → Nat → List Nat → List Nat
  | _, _, 0, buffer => buffer
  | k, tmp, n + 1, buffer => rxFill spi (k + 1) (tmp + 1) n (buffer.set tmp (spi k % 256))

/-- A device at rest whose every answer is the byte `s`. -/
def idleDev (s : Nat) : Dev :=
  { cs := true, en := false, k := 0, itk := 0, trace := [], addr_prefix := 0,
    spi := fun _ => s, it_flag := fun _ => 0 }

/-- A device at rest that answers 0x20 (transmit done) to exchange number 5
and 0x00 to every other exchange. -/
def flickerDev : Dev :=
  { cs := true, en := false, k := 0, itk := 0, trace := [], addr_prefix := 0,
    spi := fun k => if k = 5 then 0x20 else 0, it_flag := fun _ => 0 }

/-- A device at rest that answers 0x10 (maximum retries reached) from
exchange number 5 on and 0x00 before. -/
def maxRetryDev : Dev :=
  { cs := true, en := false, k := 0, itk := 0, trace := [], addr_prefix := 0,
    spi := fun k => if 5 ≤ k then 0x10 else 0, it_flag := fun _ => 0 }

/-- The configuration byte of `NRF24L01_Init`: CRC on, 2-byte CRC, power on,
mode bit 0, and the three interrupt masks set in the polling build. -/
def configByte (b : Build) : Nat :=
  if b.USE_IT then 0x0E else 0x7E

/-- What `NRF24L01_Init` emits: select high, enable low, thirteen register
writes, the two flush commands and the read of register 0. -/
def initTrace (b : Build) (cfg : InitTypeDef) : List Ev :=
  [Ev.csHigh, Ev.enLow] ++ txn [0x20, configByte b] ++ txn [0x23, 0x03] ++ txn [0x21, 0x00] ++
    txn [0x22, 0x00] ++ txn [0x24, (cfg.retryDelay % 16) * 16 + cfg.retryTimes % 16] ++
    txn [0x25, cfg.channelOffset % 256] ++
    txn [0x26, (cfg.transferSpeed ||| cfg.transferPower) % 256] ++
    txn [0x31, b.PACKET_SIZE % 256] ++ txn [0x32, b.PACKET_SIZE % 256] ++
    txn [0x33, b.PACKET_SIZE % 256] ++ txn [0x34, b.PACKET_SIZE % 256] ++
    txn [0x35, b.PACKET_SIZE % 256] ++ txn [0x36, b.PACKET_SIZE % 256] ++
    txn [0xE2] ++ txn [0xE1] ++ txn [0x00, 0x00]

/-- A configuration record with out-of-range retry settings, for a device
whose every answer is the byte `s`. -/
def sampleConfig (s : Nat) : InitTypeDef :=
  { networkId := 0x1234, channelOffset := 40, transferSpeed := 0x08, transferPower := 0x07,
    retryDelay := 0x35, retryTimes := 0xF9, writeDataCallBk := fun _ => s }

/-- The events a call added to the trace, given the states before and after. -/
def emitted (before after : Dev) : List Ev :=
  after.trace.drop before.trace.length

/-- The byte the device answered to the most recent exchange. -/
def lastAnswer (d : Dev) : Nat :=
  d.spi (d.k - 1) % 256

/-- A small polling build without acknowledge: 4-byte packets, 3 wait polls. -/
def pollBuild : Build :=
  { USE_IT := false, USE_ACK := false, PACKET_SIZE := 4, MAX_TIMEOUT := 3 }

/-- The value a call returns, when it returns. -/
def retVal {α β : Type} (r : Option (α × β)) : Option α :=
  r.map Prod.fst

/-- The bus activity of `n` successive status polls. -/
def pollTrace : Nat → List Ev
  | 0 => []
  | n + 1 => txn [0xFF] ++ pollTrace n

/-- What `NRF24L01_SendPacket` emits before it starts waiting: enable low,
one transaction with the FIFO-write opcode and the payload, enable high. -/
def loadTrace (b : Build) (buffer : List Nat) : List Ev :=
  [Ev.enLow] ++ txn (0xA0 :: (List.range' 0 b.PACKET_SIZE).map (fun i => buffer.getD i 0 % 256))
    ++ [Ev.enHigh]

/-- What `NRF24L01_SendPacket` emits once the wait is over: enable low, a
status read, the write-back of the status byte `s`, flush-TX. -/
def finishTrace (s : Nat) : List Ev :=
  [Ev.enLow] ++ txn [0xFF] ++ txn [0x27, s] ++ txn [0xE1]

/-- The status byte the device answers to the `i`-th no-op command of a
`NRF24L01_SendPacket` call started in state `d` (counting from 0): exchange
`d.k` carries the FIFO-write opcode, the next `PACKET_SIZE` the payload. -/
def pollStatus (b : Build) (d : Dev) (i : Nat) : Nat :=
  d.spi (d.k + 1 + b.PACKET_SIZE + i) % 256

/-- The select-scoped transactions of a trace, each as the list of bytes sent
between a select-low and the next select-high. -/
def transAux : Option (List Nat) → List Ev → List (List Nat)
  | _, [] => []
  | _, Ev.csLow :: es => transAux (some []) es
  | some acc, Ev.csHigh :: es => acc :: transAux none es
  | none, Ev.csHigh :: es => transAux none es
  | some acc, Ev.tx x :: es => transAux (some (acc ++ [x])) es
  | none, Ev.tx _ :: es => transAux none es
  | cur, Ev.enLow :: es => transAux cur es
  | cur, Ev.enHigh :: es => transAux cur es

def transactions (tr : List Ev) : List (List Nat) :=
  transAux none tr

/-- A flush command `cmd` was issued after the last FIFO write and after the
last time the enable line was driven high: the trace splits around a
transaction `[cmd]` such that what follows it has no enable-high and no
transaction that starts with the FIFO-write opcode. -/
def FlushedAfter (cmd : Nat) (tr : List Ev) : Prop :=
  ∃ pre post, tr = pre ++ txn [cmd] ++ post ∧ Ev.enHigh ∉ post ∧
    ¬ [Ev.csLow, Ev.tx 0xA0] <:+: post

/-- Executable form of `FlushedAfter`: try every position of the trace. -/
def flushedAfter (cmd : Nat) : List Ev → Bool
  | [] => false
  | e :: es =>
    (decide (txn [cmd] <+: e :: es) && decide (Ev.enHigh ∉ (e :: es).drop 3) &&
      decide (¬ [Ev.csLow, Ev.tx 0xA0] <:+: (e :: es).drop 3)) || flushedAfter cmd es

/-- The value `NRF24L01_Init` stores in `_addr_prefix` for network id `n`:
`((uint32_t)n) << 16`. -/
def storedPrefix (n : Nat) : Nat :=
  ((n % 2 ^ 32) <<< 16) % 2 ^ 32

/-- The five bytes the address-programming transactions send after the
opcode, computed as the code does from `addr = ADDR_PREFIX | _addr`. -/
def addrPayload (pre a : Nat) : List Nat :=
  [(pre ||| a) % 256, ((pre ||| a) >>> 8) % 256, ((pre ||| a) >>> 8 >>> 8) % 256,
    ((pre ||| a) >>> 8 >>> 8 >>> 8) % 256, 0xE7]

/-- A device in transmit mode at first that reports receive mode afterwards:
exchange number 1 (the first config read) answers 0x0E, every later exchange
answers 0x0F. -/
def modalDev : Dev :=
  { cs := true, en := false, k := 0, itk := 0, trace := [], addr_prefix := storedPrefix 0x1234,
    spi := fun k => if k = 1 then 0x0E else 0x0F, it_flag := fun _ => 0 }

/-- The small build with acknowledge compiled in. -/
def ackBuild : Build :=
  { USE_IT := false, USE_ACK := true, PACKET_SIZE := 4, MAX_TIMEOUT := 3 }

/-- A device in receive mode: enable high, and every register reads 0x0F
(config byte with the mode bit set). -/
def rxDev : Dev :=
  { cs := true, en := true, k := 0, itk := 0, trace := [], addr_prefix := storedPrefix 0x1234,
    spi := fun _ => 0x0F, it_flag := fun _ => 0 }

/-- A device in transmit mode: enable low, and every register reads 0x0E
(config byte with the mode bit clear). -/
def txDev : Dev :=
  { cs := true, en := false, k := 0, itk := 0, trace := [], addr_prefix := storedPrefix 0x1234,
    spi := fun _ => 0x0E, it_flag := fun _ => 0 }

/-- The most recent select event of a trace, starting from `st`: `some true`
after a select-low, `some false` after a select-high, `st` when the trace has
no select event. -/
def selState : Option Bool → List Ev → Option Bool
  | st, [] => st
  | _, Ev.csLow :: es => selState (some true) es
  | _, Ev.csHigh :: es => selState (some false) es
  | st, Ev.tx _ :: es => selState st es
  | st, Ev.enLow :: es => selState st es
  | st, Ev.enHigh :: es => selState st es

/-- Select-line scoping of a trace whose most recent select event so far is
`st`: a select-low never follows a select-low, a select-high never follows a
select-high, and every byte goes out after a select-low with no select-high in
between. -/
def scopedAux : Option Bool → List Ev → Bool
  | _, [] => true
  | st, Ev.csLow :: es => (st != some true) && scopedAux (some true) es
  | st, Ev.csHigh :: es => (st != some false) && scopedAux (some false) es
  | st, Ev.tx _ :: es => (st == some true) && scopedAux st es
  | st, Ev.enLow :: es => scopedAux st es
  | st, Ev.enHigh :: es => scopedAux st es

/-- Select-line scoping of the trace of one run. -/
def selectScoped (tr : List Ev) : Bool :=
  scopedAux none tr

/-- What `NRF24L01_SwitchMode` emits for pipe 0 when acknowledge is compiled
in: the pipe-0 address, then the read-modify-write of the auto-acknowledge
register and of the RX-pipe-enable register.  The register reads are
answered by exchanges number `d.k + 9` and `d.k + 13`. -/
def ackPrelude (a : Nat) (d : Dev) : List Ev :=
  txn (0x2A :: addrPayload d.addr_prefix a) ++ txn [0x01, 0x00] ++
    txn [0x21, pipeBit 0 1 (d.spi (d.k + 9) % 256)] ++ txn [0x02, 0x00] ++
    txn [0x22, pipeBit 0 1 (d.spi (d.k + 13) % 256)]

/-- What every call of `NRF24L01_SwitchMode` emits before it looks at the
target mode: enable low, the read of the config register, and the pipe-0
sequence in the acknowledge build. -/
def modePrelude (b : Build) (a : Nat) (d : Dev) : List Ev :=
  [Ev.enLow] ++ txn [0x00, 0x00] ++ (if b.USE_ACK then ackPrelude a d else [])

/-- Number of byte exchanges of `modePrelude`. -/
def preludeLen (b : Build) : Nat :=
  if b.USE_ACK then 16 else 2

/-- What a mode change emits for pipe 0 when acknowledge is not compiled in:
the read-modify-write of the RX-pipe-enable register, the read being answered
by exchange number `d.k + 3`. -/
def pipe0Switch (b : Build) (state : Nat) (d : Dev) : List Ev :=
  if b.USE_ACK then []
  else txn [0x02, 0x00] ++ txn [0x22, pipeBit 0 state (d.spi (d.k + 3) % 256)]

/-- Number of byte exchanges of `pipe0Switch`. -/
def pipe0Len (b : Build) : Nat :=
  if b.USE_ACK then 0 else 4

/-- The config byte `NRF24L01_SwitchMode` reads at its start. -/
def oldModeOf (d : Dev) : Nat :=
  d.spi (d.k + 1) % 256

/-- The byte `w` differs from the byte `r` at most in bit `p`, and bit `p`
of `w` is `v`. -/
abbrev onlyBit (p r w v : Nat) : Prop :=
  w / 2 ^ (p + 1) = r / 2 ^ (p + 1) ∧ w % 2 ^ p = r % 2 ^ p ∧ w / 2 ^ p % 2 = v

/-- A trace segment that respects select-line scoping wherever it is put:
entered with the select line not asserted, it is scoped and leaves the select
line not asserted. -/
def Closed (E : List Ev) : Prop :=
  ∀ (st : Option Bool) (rest : List Ev), st ≠ some true →
    ∃ st', st' ≠ some true ∧ scopedAux st (E ++ rest) = scopedAux st' rest

/-! ## Effect of the register access helpers -/

theorem WriteCmd_eq (cmd : Nat) (d : Dev) :
    _WriteCmd cmd d =
      (d.spi d.k % 256,
        { d with cs := true, k := d.k + 1, trace := d.trace ++ txn [cmd % 256] }) := by
  simp [_WriteCmd, _spi_write_byte, NRF24L01_CS_LOW, NRF24L01_CS_HIGH, txn]

theorem WriteReg_eq (addr dat : Nat) (d : Dev) :
    _WriteReg addr dat d =
      { d with cs := true, k := d.k + 2,
               trace := d.trace ++ txn [(_WR_OFFSET ||| addr % 256) % 256, dat % 256] } := by
  simp [_WriteReg, _spi_write_byte, NRF24L01_CS_LOW, NRF24L01_CS_HIGH, txn]

theorem ReadReg_eq (addr : Nat) (d : Dev) :
    _ReadReg addr d =
      (d.spi (d.k + 1) % 256,
        { d with cs := true, k := d.k + 2, trace := d.trace ++ txn [addr % 256, 0] }) := by
  simp [_ReadReg, _spi_write_byte, NRF24L01_CS_LOW, NRF24L01_CS_HIGH, txn]

/-! ## The FIFO read loop -/

theorem rxFill_length (spi : Nat → Nat) :
    ∀ (n k tmp : Nat) (buffer : List Nat), (rxFill spi k tmp n buffer).length = buffer.length
  | 0, _, _, _ => rfl
  | n + 1, k, tmp, buffer => by
    rw [rxFill, rxFill_length spi n]
    simp

theorem rxLoop_eq (PS : Nat) (hPS : PS ≤ 255) :
    ∀ (n fuel tmp : Nat) (buffer : List Nat) (d : Dev), tmp + n = PS → n < fuel →
      rxLoop PS fuel tmp buffer d =
        some (rxFill d.spi d.k tmp n buffer,
          { d with k := d.k + n, trace := d.trace ++ List.replicate n (Ev.tx 0) })
  | 0, fuel, tmp, buffer, d, h, hf => by
    obtain ⟨f, rfl⟩ : ∃ f, fuel = f + 1 := ⟨fuel - 1, by omega⟩
    have : ¬ tmp < PS := by omega
    simp [rxLoop, this, rxFill]
  | n + 1, fuel, tmp, buffer, d, h, hf => by
    obtain ⟨f, rfl⟩ : ∃ f, fuel = f + 1 := ⟨fuel - 1, by omega⟩
    have h1 : tmp < PS := by omega
    have h2 : (tmp + 1) % 256 = tmp + 1 := Nat.mod_eq_of_lt (by omega)
    rw [rxLoop, if_pos h1]
    simp only [h2]
    rw [rxLoop_eq PS hPS n f (tmp + 1) _ _ (by omega) (by omega)]
    simp [_spi_write_byte, rxFill, List.replicate_succ, Nat.add_assoc, Nat.add_comm 1 n]

theorem rxFill_getElem? (spi : Nat → Nat) :
    ∀ (n k tmp : Nat) (buffer : List Nat) (i : Nat),
      (rxFill spi k tmp n buffer)[i]? =
        if tmp ≤ i ∧ i < tmp + n ∧ i < buffer.length then some (spi (k + (i - tmp)) % 256)
        else buffer[i]?
  | 0, k, tmp, buffer, i => by
    have : ¬ (tmp ≤ i ∧ i < tmp + 0 ∧ i < buffer.length) := by omega
    rw [rxFill, if_neg this]
  | n + 1, k, tmp, buffer, i => by
    rw [rxFill, rxFill_getElem? spi n]
    by_cases h : tmp = i
    · subst h
      by_cases hl : tmp < buffer.length
      · have h1 : ¬ (tmp + 1 ≤ tmp ∧ tmp < tmp + 1 + n ∧
            tmp < (buffer.set tmp (spi k % 256)).length) := by omega
        have h2 : tmp ≤ tmp ∧ tmp < tmp + (n + 1) ∧ tmp < buffer.length :=
          ⟨le_refl _, by omega, hl⟩
        rw [if_neg h1, if_pos h2]
        simp [List.getElem?_set, hl]
      · have h1 : ¬ (tmp + 1 ≤ tmp ∧ tmp < tmp + 1 + n ∧
            tmp < (buffer.set tmp (spi k % 256)).length) := by omega
        have h2 : ¬ (tmp ≤ tmp ∧ tmp < tmp + (n + 1) ∧ tmp < buffer.length) := by omega
        rw [if_neg h1, if_neg h2]
        simp [List.getElem?_set, hl]
        omega
    · simp only [List.length_set]
      by_cases hc : tmp + 1 ≤ i ∧ i < tmp + 1 + n ∧ i < buffer.length
      · have h2 : tmp ≤ i ∧ i < tmp + (n + 1) ∧ i < buffer.length := by omega
        rw [if_pos hc, if_pos h2]
        have : k + 1 + (i - (tmp + 1)) = k + (i - tmp) := by omega
        rw [this]
      · have h2 : ¬ (tmp ≤ i ∧ i < tmp + (n + 1) ∧ i < buffer.length) := by omega
        rw [if_neg hc, if_neg h2]
        simp [List.getElem?_set, h]

/-! ## The three paths of `NRF24L01_ReceivePacket` -/

theorem ReceivePacket_notReady (b : Build) (buffer : List Nat) (fuel : Nat) (d : Dev)
    (hr : (d.spi d.k % 256) &&& 0x40 = 0) :
    NRF24L01_ReceivePacket b buffer fuel d =
      some (-1, buffer,
        { d with cs := true, k := d.k + 3,
                 trace := d.trace ++ (txn [0xFF] ++ txn [0x27, d.spi d.k % 256]) }) := by
  simp [NRF24L01_ReceivePacket, WriteCmd_eq, WriteReg_eq, NRF24L01_STATUS_RX_DAT_READY, hr,
    _CMD_NOP, NRF24L01_STATUS_REG, _WR_OFFSET]

theorem ReceivePacket_badPipe (b : Build) (buffer : List Nat) (fuel : Nat) (d : Dev)
    (hr : (d.spi d.k % 256) &&& 0x40 ≠ 0)
    (hp : 6 ≤ ((d.spi d.k % 256) &&& 0x0E) >>> 1) :
    NRF24L01_ReceivePacket b buffer fuel d =
      some (-1, buffer,
        { d with cs := true, k := d.k + 4,
                 trace := d.trace ++
                   (txn [0xFF] ++ txn [0x27, d.spi d.k % 256] ++ txn [0xE2]) }) := by
  have hp2 : ¬ ((d.spi d.k % 256) &&& 0x0E) >>> 1 < 6 := by omega
  simp [NRF24L01_ReceivePacket, WriteCmd_eq, WriteReg_eq, NRF24L01_STATUS_RX_DAT_READY, hr,
    _CMD_NOP, NRF24L01_STATUS_REG, _WR_OFFSET, NRF24L01_STATUS_RX_PIPE_NUMBER, hp2,
    _CMD_FLUSH_RX]

theorem ReceivePacket_ready (b : Build) (buffer : List Nat) (fuel : Nat) (d : Dev)
    (hPS : b.PACKET_SIZE ≤ 255) (hf : b.PACKET_SIZE < fuel)
    (hr : (d.spi d.k % 256) &&& 0x40 ≠ 0)
    (hp : ((d.spi d.k % 256) &&& 0x0E) >>> 1 < 6) :
    NRF24L01_ReceivePacket b buffer fuel d =
      some (((((d.spi d.k % 256) &&& 0x0E) >>> 1 : Nat) : Int),
        rxFill d.spi (d.k + 4) 0 b.PACKET_SIZE buffer,
        { d with cs := true, k := d.k + 5 + b.PACKET_SIZE,
                 trace := d.trace ++
                   (txn [0xFF] ++ txn [0x27, d.spi d.k % 256] ++
                    txn (0x61 :: List.replicate b.PACKET_SIZE 0) ++ txn [0xE2]) }) := by
  simp only [NRF24L01_ReceivePacket, WriteCmd_eq, WriteReg_eq, NRF24L01_STATUS_RX_DAT_READY,
    _CMD_NOP, NRF24L01_STATUS_REG, _WR_OFFSET, NRF24L01_STATUS_RX_PIPE_NUMBER,
    _CMD_FLUSH_RX, _FIFO_READ_ADDR, ne_eq, hr, not_false_eq_true, if_true, hp]
  rw [rxLoop_eq b.PACKET_SIZE hPS b.PACKET_SIZE fuel 0 buffer _ (by omega) hf]
  simp [_spi_write_byte, NRF24L01_CS_LOW, NRF24L01_CS_HIGH, txn, Nat.add_assoc]
  omega

/-! ## Claims about `NRF24L01_ReceivePacket` -/

/-- C1: with `s` the status byte answered to the no-op command,
`NRF24L01_ReceivePacket` returns -1 when `s & 0x40` is zero, -1 when the ready
bit is set and the pipe field `(s & 0x0E) >> 1` is at least 6, and the pipe
field otherwise; so the result lies between -1 and 5, and `s = 0x40` gives 0.
The packet size is assumed to fit the `uint8_t` loop counter. -/
theorem ReceivePacket_return_value (b : Build) (buffer : List Nat) (fuel : Nat) (d : Dev)
    (s : Nat) (hs : (_WriteCmd _CMD_NOP d).1 = s)
    (hPS : b.PACKET_SIZE ≤ 255) (hf : b.PACKET_SIZE < fuel) :
    (s &&& 0x40 = 0 → retVal (NRF24L01_ReceivePacket b buffer fuel d) = some (-1)) ∧
    (s &&& 0x40 ≠ 0 → 6 ≤ (s &&& 0x0E) >>> 1 →
      retVal (NRF24L01_ReceivePacket b buffer fuel d) = some (-1)) ∧
    (s &&& 0x40 ≠ 0 → (s &&& 0x0E) >>> 1 < 6 →
      retVal (NRF24L01_ReceivePacket b buffer fuel d) =
        some (((s &&& 0x0E) >>> 1 : Nat) : Int)) ∧
    (∃ r : Int, retVal (NRF24L01_ReceivePacket b buffer fuel d) = some r ∧
      -1 ≤ r ∧ r ≤ 5) ∧
    (s = 0x40 → retVal (NRF24L01_ReceivePacket b buffer fuel d) = some 0) := by
  have hs2 : d.spi d.k % 256 = s := by rw [← hs, WriteCmd_eq]
  subst hs2
  have A : (d.spi d.k % 256) &&& 0x40 = 0 →
      retVal (NRF24L01_ReceivePacket b buffer fuel d) = some (-1) := fun h => by
    rw [ReceivePacket_notReady b buffer fuel d h]; rfl
  have B : (d.spi d.k % 256) &&& 0x40 ≠ 0 → 6 ≤ ((d.spi d.k % 256) &&& 0x0E) >>> 1 →
      retVal (NRF24L01_ReceivePacket b buffer fuel d) = some (-1) := fun h h6 => by
    rw [ReceivePacket_badPipe b buffer fuel d h h6]; rfl
  have C : (d.spi d.k % 256) &&& 0x40 ≠ 0 → ((d.spi d.k % 256) &&& 0x0E) >>> 1 < 6 →
      retVal (NRF24L01_ReceivePacket b buffer fuel d) =
        some ((((d.spi d.k % 256) &&& 0x0E) >>> 1 : Nat) : Int) := fun h h6 => by
    rw [ReceivePacket_ready b buffer fuel d hPS hf h h6]; rfl
  refine ⟨A, B, C, ?_, ?_⟩
  · by_cases h : (d.spi d.k % 256) &&& 0x40 = 0
    · exact ⟨-1, A h, by omega, by omega⟩
    · by_cases h6 : ((d.spi d.k % 256) &&& 0x0E) >>> 1 < 6
      · exact ⟨_, C h h6, by omega, by omega⟩
      · exact ⟨-1, B h (by omega), by omega, by omega⟩
  · intro h40
    have h : (d.spi d.k % 256) &&& 0x40 ≠ 0 := by rw [h40]; decide
    have h6 : ((d.spi d.k % 256) &&& 0x0E) >>> 1 < 6 := by rw [h40]; decide
    rw [C h h6, h40]; rfl

/-- Witness for C1: a device answering 0x40 yields pipe index 0. -/
theorem ReceivePacket_return_value_witness :
    retVal (NRF24L01_ReceivePacket pollBuild [0, 0, 0, 0] 5 (idleDev 0x40)) = some 0 :=
  (ReceivePacket_return_value pollBuild [0, 0, 0, 0] 5 (idleDev 0x40) 0x40
    (by decide) (by decide) (by decide)).2.2.2.2 rfl

/-! ## The loops of `NRF24L01_SendPacket` -/

theorem txLoop_eq (PS : Nat) (buffer : List Nat) (hPS : PS ≤ 255) :
    ∀ (n fuel tmp : Nat) (d : Dev), tmp + n = PS → n < fuel →
      txLoop PS buffer fuel tmp d =
        some { d with k := d.k + n,
                      trace := d.trace ++
                        (List.range' tmp n).map (fun i => Ev.tx (buffer.getD i 0 % 256)) }
  | 0, fuel, tmp, d, h, hf => by
    obtain ⟨f, rfl⟩ : ∃ f, fuel = f + 1 := ⟨fuel - 1, by omega⟩
    have : ¬ tmp < PS := by omega
    simp [txLoop, this]
  | n + 1, fuel, tmp, d, h, hf => by
    obtain ⟨f, rfl⟩ : ∃ f, fuel = f + 1 := ⟨fuel - 1, by omega⟩
    have h1 : tmp < PS := by omega
    have h2 : (tmp + 1) % 256 = tmp + 1 := Nat.mod_eq_of_lt (by omega)
    rw [txLoop, if_pos h1]
    simp only [h2]
    rw [txLoop_eq PS buffer hPS n f (tmp + 1) _ (by omega) (by omega)]
    simp [_spi_write_byte, List.range'_succ, Nat.add_assoc, Nat.add_comm 1 n]

theorem waitLoop_exit (b : Build) (hIT : b.USE_IT = false) :
    ∀ (n fuel t : Nat) (d : Dev), n < fuel →
      (∀ j, j < n → (t + j + 1) % 65536 < b.MAX_TIMEOUT) →
      (∀ j, j < n → (d.spi (d.k + j) % 256) &&& 0x30 = 0) →
      (d.spi (d.k + n) % 256) &&& 0x30 ≠ 0 →
      waitLoop b fuel t d =
        some (none, { d with cs := true, k := d.k + (n + 1),
                             trace := d.trace ++ pollTrace (n + 1) })
  | 0, fuel, t, d, hf, _, _, hn => by
    obtain ⟨f, rfl⟩ : ∃ f, fuel = f + 1 := ⟨fuel - 1, by omega⟩
    simp only [Nat.add_zero] at hn
    simp [waitLoop, waitCond, hIT, WriteCmd_eq, NRF24L01_STATUS_TX_SEND_DONE_OR_FAILED_MASK,
      hn, pollTrace, _CMD_NOP]
  | n + 1, fuel, t, d, hf, ht, hz, hn => by
    obtain ⟨f, rfl⟩ : ∃ f, fuel = f + 1 := ⟨fuel - 1, by omega⟩
    have h0 : (d.spi d.k % 256) &&& 0x30 = 0 := by simpa using hz 0 (by omega)
    have ht0 : ¬ (b.MAX_TIMEOUT ≤ (t + 1) % 65536) := by
      have := ht 0 (by omega); simp only [Nat.add_zero] at this; omega
    rw [waitLoop]
    simp only [waitCond, hIT, WriteCmd_eq, NRF24L01_STATUS_TX_SEND_DONE_OR_FAILED_MASK, h0,
      decide_True, if_true, ge_iff_le, ht0, if_false, Bool.false_eq_true]
    rw [waitLoop_exit b hIT n f ((t + 1) % 65536) _ (by omega)
      (fun j hj => by have := ht (j + 1) (by omega); omega)
      (fun j hj => by
        have := hz (j + 1) (by omega)
        simpa [Nat.add_assoc, Nat.add_comm 1 j] using this)
      (by simpa [Nat.add_assoc, Nat.add_comm 1 n] using hn)]
    simp [pollTrace, _CMD_NOP, Nat.add_assoc, Nat.add_comm 1 n]
    omega

theorem waitLoop_timeout (b : Build) (hIT : b.USE_IT = false) :
    ∀ (n fuel t : Nat) (d : Dev), n < fuel →
      (∀ j, j < n → (t + j + 1) % 65536 < b.MAX_TIMEOUT) →
      b.MAX_TIMEOUT ≤ (t + n + 1) % 65536 →
      (∀ j, j < n + 1 → (d.spi (d.k + j) % 256) &&& 0x30 = 0) →
      waitLoop b fuel t d =
        some (some Code.TIMEOUT,
          { d with cs := true, en := false, k := d.k + (n + 1) + 4,
                   trace := d.trace ++ (pollTrace (n + 1) ++
                     ([Ev.enLow] ++ txn [0xFF] ++ txn [0x27, d.spi (d.k + (n + 1)) % 256] ++
                       txn [0xE1])) })
  | 0, fuel, t, d, hf, _, hmax, hz => by
    obtain ⟨f, rfl⟩ : ∃ f, fuel = f + 1 := ⟨fuel - 1, by omega⟩
    have h0 : (d.spi d.k % 256) &&& 0x30 = 0 := by simpa using hz 0 (by omega)
    simp only [Nat.add_zero] at hmax
    simp [waitLoop, waitCond, hIT, WriteCmd_eq, WriteReg_eq,
      NRF24L01_STATUS_TX_SEND_DONE_OR_FAILED_MASK, h0, hmax, pollTrace, _CMD_NOP,
      NRF24L01_EN_LOW, NRF24L01_STATUS_REG, _WR_OFFSET, _CMD_FLUSH_TX]
  | n + 1, fuel, t, d, hf, ht, hmax, hz => by
    obtain ⟨f, rfl⟩ : ∃ f, fuel = f + 1 := ⟨fuel - 1, by omega⟩
    have h0 : (d.spi d.k % 256) &&& 0x30 = 0 := by simpa using hz 0 (by omega)
    have ht0 : ¬ (b.MAX_TIMEOUT ≤ (t + 1) % 65536) := by
      have := ht 0 (by omega); simp only [Nat.add_zero] at this; omega
    rw [waitLoop]
    simp only [waitCond, hIT, WriteCmd_eq, NRF24L01_STATUS_TX_SEND_DONE_OR_FAILED_MASK, h0,
      decide_True, if_true, ge_iff_le, ht0, if_false, Bool.false_eq_true]
    rw [waitLoop_timeout b hIT n f ((t + 1) % 65536) _ (by omega)
      (fun j hj => by have := ht (j + 1) (by omega); omega)
      (by omega)
      (fun j hj => by
        have := hz (j + 1) (by omega)
        simpa [Nat.add_assoc, Nat.add_comm 1 j] using this)]
    simp [pollTrace, _CMD_NOP, Nat.add_assoc, Nat.add_comm 1 n]
    refine ⟨by omega, ?_⟩
    have : 1 + (n + 1) = n + 2 := by omega
    rw [this]

theorem SendPacket_exit (b : Build) (buffer : List Nat) (fuel : Nat) (d : Dev) (n : Nat)
    (hIT : b.USE_IT = false) (hPS : b.PACKET_SIZE ≤ 255) (hf : b.PACKET_SIZE < fuel)
    (hn : n < fuel)
    (ht : ∀ j, j < n → (j + 1) % 65536 < b.MAX_TIMEOUT)
    (hz : ∀ j, j < n → pollStatus b d j &&& 0x30 = 0)
    (hx : pollStatus b d n &&& 0x30 ≠ 0) :
    NRF24L01_SendPacket b buffer fuel d =
      some (if pollStatus b d (n + 1) &&& 0x20 ≠ 0 then Code.DONE else Code.FAILED,
        { d with cs := true, en := false, k := d.k + 1 + b.PACKET_SIZE + (n + 1) + 4,
                 trace := d.trace ++ (loadTrace b buffer ++ pollTrace (n + 1) ++
                   finishTrace (pollStatus b d (n + 1))) }) := by
  unfold NRF24L01_SendPacket
  simp only [pollStatus] at hz hx ⊢
  rw [txLoop_eq b.PACKET_SIZE buffer hPS b.PACKET_SIZE fuel 0 _ (by omega) hf]
  simp only []
  rw [waitLoop_exit b hIT n fuel 0 _ hn (by simpa using ht)
    (by simpa [NRF24L01_EN_HIGH, NRF24L01_CS_HIGH, _spi_write_byte, NRF24L01_CS_LOW,
      NRF24L01_EN_LOW] using hz)
    (by simpa [NRF24L01_EN_HIGH, NRF24L01_CS_HIGH, _spi_write_byte, NRF24L01_CS_LOW,
      NRF24L01_EN_LOW] using hx)]
  simp only [WriteCmd_eq, WriteReg_eq]
  split <;>
  simp_all [NRF24L01_EN_HIGH, NRF24L01_CS_HIGH, _spi_write_byte, NRF24L01_CS_LOW,
      NRF24L01_EN_LOW, loadTrace, finishTrace, txn, NRF24L01_STATUS_TX_SEND_DONE,
      _FIFO_WRITE_ADDR, _CMD_NOP, _CMD_FLUSH_TX, NRF24L01_STATUS_REG, _WR_OFFSET,
      Nat.add_assoc]


theorem SendPacket_timeout (b : Build) (buffer : List Nat) (fuel : Nat) (d : Dev) (n : Nat)
    (hIT : b.USE_IT = false) (hPS : b.PACKET_SIZE ≤ 255) (hf : b.PACKET_SIZE < fuel)
    (hn : n < fuel)
    (ht : ∀ j, j < n → (j + 1) % 65536 < b.MAX_TIMEOUT)
    (hmax : b.MAX_TIMEOUT ≤ (n + 1) % 65536)
    (hz : ∀ j, j < n + 1 → pollStatus b d j &&& 0x30 = 0) :
    NRF24L01_SendPacket b buffer fuel d =
      some (Code.TIMEOUT,
        { d with cs := true, en := false, k := d.k + 1 + b.PACKET_SIZE + (n + 1) + 4,
                 trace := d.trace ++ (loadTrace b buffer ++ pollTrace (n + 1) ++
                   finishTrace (pollStatus b d (n + 1))) }) := by
  unfold NRF24L01_SendPacket
  simp only [pollStatus] at hz ⊢
  rw [txLoop_eq b.PACKET_SIZE buffer hPS b.PACKET_SIZE fuel 0 _ (by omega) hf]
  simp only []
  rw [waitLoop_timeout b hIT n fuel 0 _ hn (by simpa using ht) (by simpa using hmax)
    (by simpa [NRF24L01_EN_HIGH, NRF24L01_CS_HIGH, _spi_write_byte, NRF24L01_CS_LOW,
      NRF24L01_EN_LOW] using hz)]
  simp [NRF24L01_EN_HIGH, NRF24L01_CS_HIGH, _spi_write_byte, NRF24L01_CS_LOW,
      NRF24L01_EN_LOW, loadTrace, finishTrace, txn, _FIFO_WRITE_ADDR, Nat.add_assoc]

/-! ## Parsing a trace into transactions -/

theorem transAux_csLow (cur : Option (List Nat)) (es : List Ev) :
    transAux cur (Ev.csLow :: es) = transAux (some []) es := by
  cases cur <;> rfl

theorem transAux_enLow (cur : Option (List Nat)) (es : List Ev) :
    transAux cur (Ev.enLow :: es) = transAux cur es := by
  cases cur <;> rfl

theorem transAux_enHigh (cur : Option (List Nat)) (es : List Ev) :
    transAux cur (Ev.enHigh :: es) = transAux cur es := by
  cases cur <;> rfl

theorem transAux_tx (acc : List Nat) (x : Nat) (es : List Ev) :
    transAux (some acc) (Ev.tx x :: es) = transAux (some (acc ++ [x])) es := rfl

theorem transAux_csHigh (acc : List Nat) (es : List Ev) :
    transAux (some acc) (Ev.csHigh :: es) = acc :: transAux none es := rfl

theorem transAux_bytes (rest : List Ev) :
    ∀ (bs acc : List Nat),
      transAux (some acc) (bs.map Ev.tx ++ Ev.csHigh :: rest) = (acc ++ bs) :: transAux none rest
  | [], acc => by simp [transAux_csHigh]
  | x :: bs, acc => by
    rw [List.map_cons, List.cons_append, transAux_tx, transAux_bytes rest bs (acc ++ [x])]
    simp

theorem transAux_txn (bs : List Nat) (rest : List Ev) :
    transAux none (txn bs ++ rest) = bs :: transAux none rest := by
  rw [txn, List.cons_append, List.append_assoc, List.singleton_append, transAux_csLow,
    transAux_bytes rest bs []]
  simp

theorem transAux_pollTrace (rest : List Ev) :
    ∀ n : Nat, transAux none (pollTrace n ++ rest) =
      List.replicate n [0xFF] ++ transAux none rest
  | 0 => by simp [pollTrace]
  | n + 1 => by
    rw [pollTrace, List.append_assoc, transAux_txn, transAux_pollTrace rest n]
    simp [List.replicate_succ]

theorem transactions_send (b : Build) (buffer : List Nat) (n s : Nat) :
    transactions (loadTrace b buffer ++ pollTrace n ++ finishTrace s) =
      (0xA0 :: (List.range' 0 b.PACKET_SIZE).map (fun i => buffer.getD i 0 % 256)) ::
        (List.replicate n [0xFF] ++ [[0xFF], [0x27, s], [0xE1]]) := by
  have e : txn [0xE1] = txn [0xE1] ++ [] := by simp
  unfold transactions loadTrace finishTrace
  rw [List.append_assoc, List.append_assoc, List.append_assoc, List.singleton_append,
    transAux_enLow, transAux_txn, List.singleton_append, transAux_enHigh,
    transAux_pollTrace, List.append_assoc, List.append_assoc, List.singleton_append,
    transAux_enLow, transAux_txn, transAux_txn, e, transAux_txn]
  rfl

/-! ## Facts about the status masks -/

theorem mask30_split (x : Nat) : x &&& 0x30 = (x &&& 0x20) ||| (x &&& 0x10) := by
  rw [← Nat.and_or_distrib_left]; rfl

theorem mask30_eq_zero (x : Nat) : x &&& 0x30 = 0 ↔ x &&& 0x20 = 0 ∧ x &&& 0x10 = 0 := by
  constructor
  · intro h
    have a : x &&& 0x20 = (x &&& 0x30) &&& 0x20 := by rw [Nat.land_assoc]; rfl
    have c : x &&& 0x10 = (x &&& 0x30) &&& 0x10 := by rw [Nat.land_assoc]; rfl
    rw [a, c, h]; simp
  · rintro ⟨h1, h2⟩
    rw [mask30_split, h1, h2]; rfl

/-! ## `NRF24L01_SendPacket` in the polling build -/

theorem SendPacket_timeout_max (b : Build) (buffer : List Nat) (fuel : Nat) (d : Dev)
    (hIT : b.USE_IT = false) (h1 : 1 ≤ b.MAX_TIMEOUT) (h2 : b.MAX_TIMEOUT ≤ 65535)
    (hPS : b.PACKET_SIZE ≤ 255) (hf : b.PACKET_SIZE < fuel) (hfm : b.MAX_TIMEOUT ≤ fuel)
    (hz : ∀ j, j < b.MAX_TIMEOUT → pollStatus b d j &&& 0x30 = 0) :
    NRF24L01_SendPacket b buffer fuel d =
      some (Code.TIMEOUT,
        { d with cs := true, en := false, k := d.k + 1 + b.PACKET_SIZE + b.MAX_TIMEOUT + 4,
                 trace := d.trace ++ (loadTrace b buffer ++ pollTrace b.MAX_TIMEOUT ++
                   finishTrace (pollStatus b d b.MAX_TIMEOUT)) }) := by
  obtain ⟨m, hm⟩ : ∃ m, b.MAX_TIMEOUT = m + 1 := ⟨b.MAX_TIMEOUT - 1, by omega⟩
  rw [SendPacket_timeout b buffer fuel d m hIT hPS hf (by omega)
    (fun j hj => by omega) (by omega) (fun j hj => hz j (by omega)), hm]

/-- C2: in the polling build with `1 ≤ MAX_TIMEOUT ≤ 65535`, whatever the
device answers, `NRF24L01_SendPacket` returns after `n` polls of its wait loop
for some `1 ≤ n ≤ MAX_TIMEOUT`; and when none of the first `MAX_TIMEOUT` polled
status bytes has bit 0x20 or bit 0x10 set, the loop makes exactly
`MAX_TIMEOUT` polls, the result is Timeout, and flush-TX is the last
transaction and the only flush-TX transaction of the call.  The packet size
is assumed to fit the `uint8_t` loop counter. -/
theorem SendPacket_wait_bounded (b : Build) (buffer : List Nat) (fuel : Nat) (d : Dev)
    (hIT : b.USE_IT = false) (h1 : 1 ≤ b.MAX_TIMEOUT) (h2 : b.MAX_TIMEOUT ≤ 65535)
    (hPS : b.PACKET_SIZE ≤ 255) (hf : b.PACKET_SIZE < fuel) (hfm : b.MAX_TIMEOUT ≤ fuel) :
    (∃ n c d', 1 ≤ n ∧ n ≤ b.MAX_TIMEOUT ∧
      NRF24L01_SendPacket b buffer fuel d = some (c, d') ∧
      d'.trace = d.trace ++
        (loadTrace b buffer ++ pollTrace n ++ finishTrace (pollStatus b d n))) ∧
    ((∀ i, i < b.MAX_TIMEOUT →
        pollStatus b d i &&& 0x20 = 0 ∧ pollStatus b d i &&& 0x10 = 0) →
      ∃ d', NRF24L01_SendPacket b buffer fuel d = some (Code.TIMEOUT, d') ∧
        d'.trace = d.trace ++ (loadTrace b buffer ++ pollTrace b.MAX_TIMEOUT ++
          finishTrace (pollStatus b d b.MAX_TIMEOUT)) ∧
        (transactions (loadTrace b buffer ++ pollTrace b.MAX_TIMEOUT ++
          finishTrace (pollStatus b d b.MAX_TIMEOUT))).count [0xE1] = 1 ∧
        (transactions (loadTrace b buffer ++ pollTrace b.MAX_TIMEOUT ++
          finishTrace (pollStatus b d b.MAX_TIMEOUT))).getLast? = some [0xE1]) := by
  constructor
  · by_cases h : ∃ i, i < b.MAX_TIMEOUT ∧ pollStatus b d i &&& 0x30 ≠ 0
    · have hlt := (Nat.find_spec h).1
      have hx := (Nat.find_spec h).2
      have hz : ∀ j, j < Nat.find h → pollStatus b d j &&& 0x30 = 0 := fun j hj => by
        have := Nat.find_min h hj
        by_contra hc
        exact this ⟨by omega, hc⟩
      refine ⟨Nat.find h + 1, _, _, by omega, by omega,
        SendPacket_exit b buffer fuel d (Nat.find h) hIT hPS hf (by omega)
          (fun j hj => by omega) hz hx, rfl⟩
    · have hz : ∀ j, j < b.MAX_TIMEOUT → pollStatus b d j &&& 0x30 = 0 := fun j hj => by
        by_contra hc
        exact h ⟨j, hj, hc⟩
      exact ⟨b.MAX_TIMEOUT, _, _, h1, le_refl _,
        SendPacket_timeout_max b buffer fuel d hIT h1 h2 hPS hf hfm hz, rfl⟩
  · intro hall
    have hz : ∀ j, j < b.MAX_TIMEOUT → pollStatus b d j &&& 0x30 = 0 := fun j hj =>
      (mask30_eq_zero _).2 (hall j hj)
    refine ⟨_, SendPacket_timeout_max b buffer fuel d hIT h1 h2 hPS hf hfm hz, rfl, ?_, ?_⟩
    · rw [transactions_send]
      simp [List.count_cons, List.count_replicate]
    · rw [transactions_send]
      have e : ∀ (x : List Nat) (A : List (List Nat)) (u v w : List Nat),
          x :: (A ++ [u, v, w]) = (x :: (A ++ [u, v])) ++ [w] := by
        intro x A u v w; simp
      rw [e, List.getLast?_append]
      rfl

/-- Witness for C2: a device that never reports completion times out. -/
theorem SendPacket_wait_bounded_witness :
    retVal (NRF24L01_SendPacket pollBuild [1, 2, 3, 4] 5 (idleDev 0)) = some Code.TIMEOUT := by
  obtain ⟨d', h, _⟩ := (SendPacket_wait_bounded pollBuild [1, 2, 3, 4] 5 (idleDev 0) rfl
    (by decide) (by decide) (by decide) (by decide) (by decide)).2
    (fun i _ => by simp [pollStatus, idleDev])
  rw [h]; rfl

/-- C3, the claim as stated fails: the first polled status byte has the
transmit-done bit set, yet the call returns Failed, because the result is
taken from a second status read; and two no-op commands were issued, not one. -/
theorem SendPacket_done_on_poll_counterexample :
    pollBuild.USE_IT = false ∧ 1 ≤ pollBuild.MAX_TIMEOUT ∧
    pollStatus pollBuild flickerDev 0 &&& 0x20 ≠ 0 ∧
    retVal (NRF24L01_SendPacket pollBuild [1, 2, 3, 4] 5 flickerDev) = some Code.FAILED ∧
    retVal (NRF24L01_SendPacket pollBuild [1, 2, 3, 4] 5 flickerDev) ≠ some Code.DONE ∧
    (NRF24L01_SendPacket pollBuild [1, 2, 3, 4] 5 flickerDev).map
      (fun r => (transactions r.2.trace).count [0xFF]) = some 2 := by
  decide

/-- C3 as amended: in the polling build, when the first `N - 1` polled status
bytes have neither bit 0x20 nor bit 0x10 set and the `N`-th has bit 0x20 set
(`1 ≤ N ≤ MAX_TIMEOUT`), the wait loop ends after exactly `N` polls; one more
no-op command follows (`N + 1` in all), and the call returns Done when the
status byte answered to that last no-op has bit 0x20 set, Failed otherwise. -/
theorem SendPacket_done_on_poll (b : Build) (buffer : List Nat) (fuel : Nat) (d : Dev)
    (N : Nat) (hIT : b.USE_IT = false) (hN1 : 1 ≤ N) (hN : N ≤ b.MAX_TIMEOUT)
    (hPS : b.PACKET_SIZE ≤ 255) (hf : b.PACKET_SIZE < fuel) (hfN : N ≤ fuel)
    (hz : ∀ i, i + 1 < N →
      pollStatus b d i &&& 0x20 = 0 ∧ pollStatus b d i &&& 0x10 = 0)
    (hx : pollStatus b d (N - 1) &&& 0x20 ≠ 0) :
    ∃ d', NRF24L01_SendPacket b buffer fuel d =
        some (if pollStatus b d N &&& 0x20 ≠ 0 then Code.DONE else Code.FAILED, d') ∧
      d'.trace = d.trace ++
        (loadTrace b buffer ++ pollTrace N ++ finishTrace (pollStatus b d N)) ∧
      (transactions (loadTrace b buffer ++ pollTrace N ++
        finishTrace (pollStatus b d N))).count [0xFF] = N + 1 := by
  obtain ⟨m, rfl⟩ : ∃ m, N = m + 1 := ⟨N - 1, by omega⟩
  have hx30 : pollStatus b d m &&& 0x30 ≠ 0 := fun h0 =>
    hx (by simpa using ((mask30_eq_zero _).1 h0).1)
  refine ⟨_, SendPacket_exit b buffer fuel d m hIT hPS hf (by omega)
    (fun j hj => by omega) (fun j hj => (mask30_eq_zero _).2 (hz j (by omega))) hx30,
    rfl, ?_⟩
  rw [transactions_send]
  simp [List.count_cons, List.count_replicate]

/-- Witness for C3 as amended: the device reports transmit-done from the
second poll on, and the call returns Done after two polls. -/
theorem SendPacket_done_on_poll_witness :
    retVal (NRF24L01_SendPacket pollBuild [1, 2, 3, 4] 5
      { idleDev 0 with spi := fun k => if 6 ≤ k then 0x20 else 0 }) = some Code.DONE := by
  obtain ⟨d', h, _⟩ := SendPacket_done_on_poll pollBuild [1, 2, 3, 4] 5
    { idleDev 0 with spi := fun k => if 6 ≤ k then 0x20 else 0 } 2 rfl
    (by decide) (by decide) (by decide) (by decide) (by decide)
    (fun i hi => by
      have : i = 0 := by omega
      subst this; decide)
    (by decide)
  rw [h]; rfl

/-! ## `NRF24L01_SendPacket` in every build -/

theorem SendPacket_after_wait (b : Build) (buffer : List Nat) (fuel : Nat) (d d1 d2 : Dev)
    (h1 : txLoop b.PACKET_SIZE buffer fuel 0
      (_spi_write_byte _FIFO_WRITE_ADDR (NRF24L01_CS_LOW (NRF24L01_EN_LOW d))).2 = some d1)
    (h2 : waitLoop b fuel 0 (NRF24L01_EN_HIGH (NRF24L01_CS_HIGH d1)) = some (none, d2)) :
    NRF24L01_SendPacket b buffer fuel d =
      some (if (d2.spi d2.k % 256) &&& 0x20 ≠ 0 then Code.DONE else Code.FAILED,
        { d2 with cs := true, en := false, k := d2.k + 4,
                  trace := d2.trace ++ finishTrace (d2.spi d2.k % 256) }) := by
  unfold NRF24L01_SendPacket
  simp only [h1, h2, WriteCmd_eq, WriteReg_eq]
  split <;>
  simp_all [NRF24L01_EN_LOW, finishTrace, txn, NRF24L01_STATUS_TX_SEND_DONE,
    _CMD_NOP, _CMD_FLUSH_TX, NRF24L01_STATUS_REG, _WR_OFFSET]

/-- C4: when `NRF24L01_SendPacket` leaves its wait loop without timing out
(state `d2`), and `s` is the status byte it then reads, the call returns Done
exactly when `s` has bit 0x20 set and Failed exactly when it has not; with
only the max-retry bit of the two completion bits set it returns Failed; and
the byte written back with opcode 0x27 is this same `s`. -/
theorem SendPacket_result_after_wait (b : Build) (buffer : List Nat) (fuel : Nat)
    (d d1 d2 : Dev) (s : Nat)
    (h1 : txLoop b.PACKET_SIZE buffer fuel 0
      (_spi_write_byte _FIFO_WRITE_ADDR (NRF24L01_CS_LOW (NRF24L01_EN_LOW d))).2 = some d1)
    (h2 : waitLoop b fuel 0 (NRF24L01_EN_HIGH (NRF24L01_CS_HIGH d1)) = some (none, d2))
    (hs : (_WriteCmd _CMD_NOP (NRF24L01_EN_LOW d2)).1 = s) :
    (retVal (NRF24L01_SendPacket b buffer fuel d) = some Code.DONE ↔ s &&& 0x20 ≠ 0) ∧
    (retVal (NRF24L01_SendPacket b buffer fuel d) = some Code.FAILED ↔ s &&& 0x20 = 0) ∧
    (s &&& 0x30 = 0x10 → retVal (NRF24L01_SendPacket b buffer fuel d) = some Code.FAILED) ∧
    (∃ c d3, NRF24L01_SendPacket b buffer fuel d = some (c, d3) ∧
      d3.trace = d2.trace ++ ([Ev.enLow] ++ txn [0xFF] ++ txn [0x27, s] ++ txn [0xE1])) := by
  have hs2 : d2.spi d2.k % 256 = s := by
    rw [← hs, WriteCmd_eq]; rfl
  have key := SendPacket_after_wait b buffer fuel d d1 d2 h1 h2
  rw [hs2] at key
  have A : retVal (NRF24L01_SendPacket b buffer fuel d) = some Code.DONE ↔ s &&& 0x20 ≠ 0 := by
    rw [key]
    by_cases h : s &&& 0x20 = 0 <;> simp [retVal, h]
  have B : retVal (NRF24L01_SendPacket b buffer fuel d) = some Code.FAILED ↔ s &&& 0x20 = 0 := by
    rw [key]
    by_cases h : s &&& 0x20 = 0 <;> simp [retVal, h]
  refine ⟨A, B, fun h30 => B.2 ?_, _, _, key, rfl⟩
  have e : s &&& 0x20 = (s &&& 0x30) &&& 0x20 := by rw [Nat.land_assoc]; rfl
  rw [e, h30]; rfl

/-- Witness for C4: the device reports only max-retry; the wait loop is left
at the first poll and the call returns Failed. -/
theorem SendPacket_result_after_wait_witness :
    retVal (NRF24L01_SendPacket pollBuild [1, 2, 3, 4] 5 maxRetryDev) = some Code.FAILED :=
  (SendPacket_result_after_wait pollBuild [1, 2, 3, 4] 5 maxRetryDev
    { maxRetryDev with cs := false, k := 5,
                       trace := [Ev.enLow, Ev.csLow, Ev.tx 0xA0, Ev.tx 1, Ev.tx 2, Ev.tx 3,
                         Ev.tx 4] }
    { maxRetryDev with en := true, k := 6,
                       trace := [Ev.enLow, Ev.csLow, Ev.tx 0xA0, Ev.tx 1, Ev.tx 2, Ev.tx 3,
                         Ev.tx 4, Ev.csHigh, Ev.enHigh, Ev.csLow, Ev.tx 0xFF, Ev.csHigh] }
    0x10 rfl rfl rfl).2.2.1 (by decide)

/-! ## `NRF24L01_Init` -/

theorem Init_tmp_eq (b : Build) : Init_tmp b = configByte b := by
  unfold Init_tmp configByte
  split <;> rfl

theorem configByte_lt (b : Build) : configByte b < 256 := by
  unfold configByte
  split <;> decide

theorem retry_byte (rd rt : Nat) :
    (((rd &&& 0x0f) <<< 4) ||| (rt &&& 0x0f)) % 256 = (rd % 16) * 16 + rt % 16 := by
  have h1 : rd &&& 0x0f = rd % 16 := Nat.and_pow_two_sub_one_eq_mod rd 4
  have h2 : rt &&& 0x0f = rt % 16 := Nat.and_pow_two_sub_one_eq_mod rt 4
  have h3 : rt % 16 < 2 ^ 4 := Nat.mod_lt _ (by decide)
  have h4 := Nat.mul_add_lt_is_or h3 (rd % 16)
  rw [h1, h2, Nat.shiftLeft_eq, Nat.mul_comm, ← h4]
  omega

theorem Init_eq (b : Build) (cfg : InitTypeDef) (d : Dev) :
    NRF24L01_Init b cfg d =
      (if cfg.writeDataCallBk (d.k + 29) % 256 = configByte b then Code.DONE else Code.FAILED,
        { cfg with retryDelay := cfg.retryDelay &&& 0x0f,
                   retryTimes := cfg.retryTimes &&& 0x0f },
        { d with cs := true, en := false, k := d.k + 30,
                 trace := d.trace ++ initTrace b cfg,
                 addr_prefix := ((cfg.networkId % 2 ^ 32) <<< 16) % 2 ^ 32,
                 spi := cfg.writeDataCallBk }) := by
  have hr := retry_byte cfg.retryDelay cfg.retryTimes
  have hc := Nat.mod_eq_of_lt (configByte_lt b)
  have hl : List.range 6 = [0, 1, 2, 3, 4, 5] := by decide
  unfold NRF24L01_Init Init_widthLoop
  simp only [Init_tmp_eq, hl, List.foldl, WriteReg_eq, WriteCmd_eq, ReadReg_eq,
    NRF24L01_CS_HIGH, NRF24L01_EN_LOW]
  split <;>
  simp_all [initTrace, NRF24L01_CONFIG_REG, NRF24L01_ADDR_WIDTH_REG, NRF24L01_ADDR_WIDTH_5BYTE,
    NRF24L01_AUTO_ACK_REG, NRF24L01_RX_PIPE_EN_REG, NRF24L01_RETRY_CONFIG_REG,
    NRF24L01_RF_CHANNAL_REG, NRF24L01_RF_CONFIG_REG, NRF24L01_RX_PIPEx_WIDTH_REG,
    _CMD_FLUSH_RX, _CMD_FLUSH_TX, _WR_OFFSET, Nat.add_assoc] <;>
  rw [Nat.mod_eq_of_lt (configByte_lt b)]

theorem Init_emitted (b : Build) (cfg : InitTypeDef) (d : Dev) :
    emitted d (NRF24L01_Init b cfg d).2.2 = initTrace b cfg := by
  rw [Init_eq]
  simp [emitted]

/-! ## Every return of `NRF24L01_SendPacket` ends with the clean-up sequence -/

theorem txLoop_trace (PS : Nat) (buffer : List Nat) :
    ∀ (fuel tmp : Nat) (d d1 : Dev), txLoop PS buffer fuel tmp d = some d1 →
      ∃ w, d1.trace = d.trace ++ w
  | 0, _, _, _, h => by simp [txLoop] at h
  | fuel + 1, tmp, d, d1, h => by
    rw [txLoop] at h
    split at h
    · obtain ⟨w, hw⟩ := txLoop_trace PS buffer fuel _ _ d1 h
      exact ⟨_, by rw [hw]; simp [_spi_write_byte]; rfl⟩
    · simp only [Option.some.injEq] at h
      exact ⟨[], by simp [h]⟩

theorem waitCond_trace (b : Build) (d : Dev) :
    ∃ w, (waitCond b d).2.trace = d.trace ++ w := by
  unfold waitCond
  split
  · exact ⟨[], by simp [NRF24L01_Check_IT_Flag]⟩
  · exact ⟨_, by simp only [WriteCmd_eq]; rfl⟩

theorem waitLoop_trace (b : Build) :
    ∀ (fuel t : Nat) (d d' : Dev) (oc : Option Code), waitLoop b fuel t d = some (oc, d') →
      (∃ w, d'.trace = d.trace ++ w) ∧
      (∀ c, oc = some c → c = Code.TIMEOUT ∧ d'.en = false ∧
        ∃ mid s, d'.trace = d.trace ++ (mid ++ finishTrace s))
  | 0, _, _, _, _, h => by simp [waitLoop] at h
  | fuel + 1, t, d, d', oc, h => by
    obtain ⟨w, hw⟩ := waitCond_trace b d
    rw [waitLoop] at h
    simp only [] at h
    split at h
    · split at h
      · simp only [Option.some.injEq, Prod.mk.injEq] at h
        obtain ⟨h1, h2⟩ := h
        subst h1 h2
        have ht : ∀ s, (_WriteCmd _CMD_FLUSH_TX (_WriteReg NRF24L01_STATUS_REG s
            (_WriteCmd _CMD_NOP (NRF24L01_EN_LOW (waitCond b d).2)).2)).2.trace =
            d.trace ++ (w ++ finishTrace (s % 256)) := by
          intro s
          simp [WriteCmd_eq, WriteReg_eq, NRF24L01_EN_LOW, hw, finishTrace, _CMD_NOP,
            _CMD_FLUSH_TX, NRF24L01_STATUS_REG, _WR_OFFSET]
        refine ⟨⟨_, ht _⟩, fun c hc => ⟨?_, ?_, w, _, ht _⟩⟩
        · simp only [Option.some.injEq] at hc; exact hc.symm
        · simp [WriteCmd_eq, WriteReg_eq, NRF24L01_EN_LOW]
      · obtain ⟨⟨w2, hw2⟩, h3⟩ := waitLoop_trace b fuel _ _ d' oc h
        refine ⟨⟨w ++ w2, by rw [hw2, hw, List.append_assoc]⟩, fun c hc => ?_⟩
        obtain ⟨e1, e2, mid, s, e3⟩ := h3 c hc
        exact ⟨e1, e2, w ++ mid, s, by rw [e3, hw]; simp⟩
    · simp only [Option.some.injEq, Prod.mk.injEq] at h
      obtain ⟨h1, h2⟩ := h
      subst h1 h2
      exact ⟨⟨w, hw⟩, fun c hc => by simp at hc⟩

theorem SendPacket_returned (b : Build) (buffer : List Nat) (fuel : Nat) (d d' : Dev)
    (c : Code) (h : NRF24L01_SendPacket b buffer fuel d = some (c, d')) :
    d'.en = false ∧ ∃ mid s, d'.trace = d.trace ++ (mid ++ finishTrace s) := by
  unfold NRF24L01_SendPacket at h
  simp only [] at h
  split at h
  · simp at h
  · rename_i d1 h1
    obtain ⟨w1, hw1⟩ := txLoop_trace _ _ _ _ _ _ h1
    have hw1b : d1.trace = d.trace ++ ([Ev.enLow, Ev.csLow, Ev.tx 0xA0] ++ w1) := by
      rw [hw1]
      simp [_spi_write_byte, NRF24L01_CS_LOW, NRF24L01_EN_LOW, _FIFO_WRITE_ADDR]
    split at h
    · simp at h
    · rename_i c2 d2 h2
      simp only [Option.some.injEq, Prod.mk.injEq] at h
      obtain ⟨e1, e2⟩ := h
      subst e1 e2
      obtain ⟨_, h3⟩ := waitLoop_trace b _ _ _ _ _ h2
      obtain ⟨_, e2, mid, s, e3⟩ := h3 c2 rfl
      refine ⟨e2, [Ev.enLow, Ev.csLow, Ev.tx 0xA0] ++ w1 ++ [Ev.csHigh, Ev.enHigh] ++ mid,
        s, ?_⟩
      rw [e3]
      simp [NRF24L01_EN_HIGH, NRF24L01_CS_HIGH, hw1b]
    · rename_i d2 h2
      obtain ⟨⟨w2, hw2⟩, _⟩ := waitLoop_trace b _ _ _ _ _ h2
      have key : ∀ cc, some (cc,
          (_WriteCmd _CMD_FLUSH_TX (_WriteReg NRF24L01_STATUS_REG
            (_WriteCmd _CMD_NOP (NRF24L01_EN_LOW d2)).1
            (_WriteCmd _CMD_NOP (NRF24L01_EN_LOW d2)).2)).2) = some (c, d') →
          d'.en = false ∧ ∃ mid s, d'.trace = d.trace ++ (mid ++ finishTrace s) := by
        intro cc hcc
        simp only [Option.some.injEq, Prod.mk.injEq] at hcc
        obtain ⟨_, e2⟩ := hcc
        subst e2
        refine ⟨by simp [WriteCmd_eq, WriteReg_eq, NRF24L01_EN_LOW],
          [Ev.enLow, Ev.csLow, Ev.tx 0xA0] ++ w1 ++ [Ev.csHigh, Ev.enHigh] ++ w2,
          d2.spi d2.k % 256, ?_⟩
        simp [WriteCmd_eq, WriteReg_eq, NRF24L01_EN_LOW, hw2, NRF24L01_EN_HIGH,
          NRF24L01_CS_HIGH, hw1b, finishTrace, _CMD_NOP, _CMD_FLUSH_TX, NRF24L01_STATUS_REG,
          _WR_OFFSET]
      split at h
      · exact key _ h
      · exact key _ h

/-! ## Failure leaves the device inactive -/

theorem flushedAfter_iff (cmd : Nat) :
    ∀ tr : List Ev, flushedAfter cmd tr = true ↔ FlushedAfter cmd tr
  | [] => by
    simp only [flushedAfter, Bool.false_eq_true, false_iff]
    rintro ⟨pre, post, h, _⟩
    have := congrArg List.length h
    simp [txn] at this
    omega
  | e :: es => by
    rw [flushedAfter, Bool.or_eq_true, flushedAfter_iff cmd es]
    constructor
    · rintro (h | ⟨pre, post, h1, h2, h3⟩)
      · simp only [Bool.and_eq_true, decide_eq_true_eq] at h
        obtain ⟨⟨⟨t, ht⟩, h2⟩, h3⟩ := h
        have hd : (e :: es).drop 3 = t := by rw [← ht]; simp [txn]
        rw [hd] at h2 h3
        exact ⟨[], t, by simpa using ht.symm, h2, h3⟩
      · exact ⟨e :: pre, post, by simp [h1], h2, h3⟩
    · rintro ⟨pre, post, h1, h2, h3⟩
      cases pre with
      | nil =>
        left
        have hd : (e :: es).drop 3 = post := by rw [h1]; simp [txn]
        simp only [Bool.and_eq_true, decide_eq_true_eq, hd]
        exact ⟨⟨⟨post, by simpa using h1.symm⟩, h2⟩, h3⟩
      | cons x pre =>
        right
        simp only [List.cons_append, List.cons.injEq] at h1
        exact ⟨pre, post, h1.2, h2, h3⟩

theorem FlushedAfter_finish (mid : List Ev) (s : Nat) :
    FlushedAfter 0xE1 (mid ++ finishTrace s) :=
  ⟨mid ++ ([Ev.enLow] ++ txn [0xFF] ++ txn [0x27, s]), [], by simp [finishTrace],
    by simp, by simp⟩

theorem FlushedAfter_init (b : Build) (cfg : InitTypeDef) :
    FlushedAfter 0xE2 (initTrace b cfg) ∧ FlushedAfter 0xE1 (initTrace b cfg) := by
  constructor
  · refine ⟨(initTrace b cfg).take 54, txn [0xE1] ++ txn [0x00, 0x00], ?_,
      by simp [txn], by decide⟩
    simp [initTrace, txn]
  · refine ⟨(initTrace b cfg).take 57, txn [0x00, 0x00], ?_, by simp [txn], by decide⟩
    simp [initTrace, txn]

/-- C5: every run of `NRF24L01_SendPacket` that returns Timeout or Failed
ends with the enable line low and with a flush-TX command issued after its
FIFO write and after the last time it drove the enable line high; every run
of `NRF24L01_Init` that returns Failed ends with the enable line low and with
flush-RX and flush-TX issued, no FIFO write and no enable-high after them. -/
theorem failure_leaves_device_inactive (b : Build) :
    (∀ (buffer : List Nat) (fuel : Nat) (d d' : Dev) (c : Code),
      NRF24L01_SendPacket b buffer fuel d = some (c, d') →
      c = Code.TIMEOUT ∨ c = Code.FAILED →
      d'.en = false ∧ d.trace <+: d'.trace ∧ FlushedAfter 0xE1 (emitted d d')) ∧
    (∀ (cfg cfg' : InitTypeDef) (d d' : Dev),
      NRF24L01_Init b cfg d = (Code.FAILED, cfg', d') →
      d'.en = false ∧ d.trace <+: d'.trace ∧
        FlushedAfter 0xE2 (emitted d d') ∧ FlushedAfter 0xE1 (emitted d d')) := by
  constructor
  · intro buffer fuel d d' c h _
    obtain ⟨h1, mid, s, h2⟩ := SendPacket_returned b buffer fuel d d' c h
    refine ⟨h1, ⟨_, h2.symm⟩, ?_⟩
    rw [emitted, h2, List.drop_left]
    exact FlushedAfter_finish mid s
  · intro cfg cfg' d d' h
    have e := Init_emitted b cfg d
    rw [h] at e
    rw [Init_eq] at h
    simp only [Prod.mk.injEq] at h
    obtain ⟨_, _, h3⟩ := h
    refine ⟨by rw [← h3], ⟨initTrace b cfg, by rw [← h3]⟩, ?_⟩
    rw [e]
    exact FlushedAfter_init b cfg

/-- Witness for C5: a send that times out and an initialization whose
read-back does not match both end with the enable line low and the flush
commands in place. -/
theorem failure_leaves_device_inactive_witness :
    (NRF24L01_SendPacket pollBuild [1, 2, 3, 4] 5 (idleDev 0)).map
        (fun r => (r.1, r.2.en, flushedAfter 0xE1 (emitted (idleDev 0) r.2))) =
      some (Code.TIMEOUT, false, true) ∧
    (NRF24L01_Init pollBuild (sampleConfig 0) (idleDev 0)).1 = Code.FAILED ∧
    (NRF24L01_Init pollBuild (sampleConfig 0) (idleDev 0)).2.2.en = false ∧
    flushedAfter 0xE2
      (emitted (idleDev 0) (NRF24L01_Init pollBuild (sampleConfig 0) (idleDev 0)).2.2) = true := by
  have hI : NRF24L01_Init pollBuild (sampleConfig 0) (idleDev 0) =
      (Code.FAILED, (NRF24L01_Init pollBuild (sampleConfig 0) (idleDev 0)).2.1,
        (NRF24L01_Init pollBuild (sampleConfig 0) (idleDev 0)).2.2) := rfl
  have hS : ∃ d', NRF24L01_SendPacket pollBuild [1, 2, 3, 4] 5 (idleDev 0) =
      some (Code.TIMEOUT, d') := ⟨_, rfl⟩
  obtain ⟨d', hS⟩ := hS
  have w := failure_leaves_device_inactive pollBuild
  have wS := w.1 _ _ _ _ _ hS (Or.inl rfl)
  have wI := w.2 _ _ _ _ hI
  refine ⟨?_, rfl, wI.1, (flushedAfter_iff _ _).2 wI.2.2.1⟩
  rw [hS]
  simp [wS.1, (flushedAfter_iff _ _).2 wS.2.2]

/-! ## Bus activity of `NRF24L01_ReceivePacket` -/

theorem transactions_two (s : Nat) :
    transactions (txn [0xFF] ++ txn [0x27, s]) = [[0xFF], [0x27, s]] := by
  have e : txn [0x27, s] = txn [0x27, s] ++ [] := by simp
  unfold transactions
  rw [transAux_txn, e, transAux_txn]
  rfl

theorem transactions_three (s : Nat) :
    transactions (txn [0xFF] ++ txn [0x27, s] ++ txn [0xE2]) =
      [[0xFF], [0x27, s], [0xE2]] := by
  have e : txn [0xE2] = txn [0xE2] ++ [] := by simp
  unfold transactions
  rw [List.append_assoc, transAux_txn, transAux_txn, e, transAux_txn]
  rfl

theorem transactions_four (s : Nat) (bs : List Nat) :
    transactions (txn [0xFF] ++ txn [0x27, s] ++ txn bs ++ txn [0xE2]) =
      [[0xFF], [0x27, s], bs, [0xE2]] := by
  have e : txn [0xE2] = txn [0xE2] ++ [] := by simp
  unfold transactions
  rw [List.append_assoc, List.append_assoc, transAux_txn, transAux_txn, transAux_txn, e,
    transAux_txn]
  rfl

/-- C6: when the status byte `s` has the data-ready bit set and a pipe field
below 6, `NRF24L01_ReceivePacket` emits exactly the four transactions
`[0xFF]`, `[0x27, s]`, `0x61` followed by `PACKET_SIZE` zero bytes, `[0xE2]`,
and afterwards `buffer[i]` is the byte the device answered to the `i`-th
dummy byte, which is exchange number `4 + i` of the call.  The buffer holds
`PACKET_SIZE` bytes and the packet size fits the `uint8_t` loop counter. -/
theorem ReceivePacket_reads_packet (b : Build) (buffer : List Nat) (fuel : Nat) (d : Dev)
    (s : Nat) (hs : (_WriteCmd _CMD_NOP d).1 = s)
    (hPS : b.PACKET_SIZE ≤ 255) (hf : b.PACKET_SIZE < fuel)
    (hlen : buffer.length = b.PACKET_SIZE)
    (hr : s &&& 0x40 ≠ 0) (hp : (s &&& 0x0E) >>> 1 < 6) :
    ∃ buffer' d', NRF24L01_ReceivePacket b buffer fuel d =
        some ((((s &&& 0x0E) >>> 1 : Nat) : Int), buffer', d') ∧
      d'.trace = d.trace ++ (txn [0xFF] ++ txn [0x27, s] ++
        txn (0x61 :: List.replicate b.PACKET_SIZE 0) ++ txn [0xE2]) ∧
      transactions (txn [0xFF] ++ txn [0x27, s] ++
        txn (0x61 :: List.replicate b.PACKET_SIZE 0) ++ txn [0xE2]) =
        [[0xFF], [0x27, s], 0x61 :: List.replicate b.PACKET_SIZE 0, [0xE2]] ∧
      buffer'.length = b.PACKET_SIZE ∧
      ∀ i, i < b.PACKET_SIZE → buffer'[i]? = some (d.spi (d.k + 4 + i) % 256) := by
  have hs2 : d.spi d.k % 256 = s := by rw [← hs, WriteCmd_eq]
  subst hs2
  refine ⟨_, _, ReceivePacket_ready b buffer fuel d hPS hf hr hp, rfl,
    transactions_four _ _, ?_, ?_⟩
  · rw [rxFill_length, hlen]
  · intro i hi
    rw [rxFill_getElem?, if_pos ⟨Nat.zero_le _, by omega, by omega⟩]
    simp

/-- Witness for C6: a device answering 0x42 to every exchange delivers a
packet on pipe 1 and fills the buffer with 0x42. -/
theorem ReceivePacket_reads_packet_witness :
    (NRF24L01_ReceivePacket pollBuild [0, 0, 0, 0] 5 (idleDev 0x42)).map
      (fun r => (r.1, r.2.1)) = some (1, [0x42, 0x42, 0x42, 0x42]) := by
  obtain ⟨buffer', d', h, _, _, hl, hb⟩ := ReceivePacket_reads_packet pollBuild [0, 0, 0, 0] 5
    (idleDev 0x42) 0x42 (by decide) (by decide) (by decide) (by decide) (by decide)
    (by decide)
  rw [h]
  have e : buffer' = [0x42, 0x42, 0x42, 0x42] := by
    apply List.ext_getElem?
    intro i
    by_cases hi : i < 4
    · rw [hb i hi]
      interval_cases i <;> rfl
    · rw [List.getElem?_eq_none (by rw [hl]; exact Nat.le_of_not_lt hi),
        List.getElem?_eq_none (by simpa using Nat.le_of_not_lt hi)]
  rw [e]; rfl

theorem ReceivePacket_ready_value (b : Build) (buffer : List Nat) (fuel : Nat) (d : Dev)
    (hr : (d.spi d.k % 256) &&& 0x40 ≠ 0)
    (hp : ((d.spi d.k % 256) &&& 0x0E) >>> 1 < 6) (r : Int × List Nat × Dev)
    (h : NRF24L01_ReceivePacket b buffer fuel d = some r) : 0 ≤ r.1 := by
  simp only [NRF24L01_ReceivePacket, WriteCmd_eq, WriteReg_eq, NRF24L01_STATUS_RX_DAT_READY,
    NRF24L01_STATUS_RX_PIPE_NUMBER, ne_eq, hr, not_false_eq_true, if_true, hp] at h
  split at h
  · simp at h
  · simp only [Option.some.injEq] at h
    rw [← h]
    exact Int.natCast_nonneg _

/-- C7: whenever `NRF24L01_ReceivePacket` returns -1 the buffer is unchanged
and none of its transactions starts with the FIFO-read opcode 0x61; with the
data-ready bit of the status byte `s` clear the bus activity is `[0xFF]`,
`[0x27, s]` and nothing else, and with the ready bit set but a pipe field of
6 or 7 it is `[0xFF]`, `[0x27, s]`, `[0xE2]`. -/
theorem ReceivePacket_no_packet (b : Build) (buffer : List Nat) (fuel : Nat) (d : Dev)
    (s : Nat) (hs : (_WriteCmd _CMD_NOP d).1 = s) :
    (∀ buffer' d', NRF24L01_ReceivePacket b buffer fuel d = some (-1, buffer', d') →
      buffer' = buffer ∧ ∃ E, d'.trace = d.trace ++ E ∧
        ∀ t, t ∈ transactions E → t.head? ≠ some 0x61) ∧
    (s &&& 0x40 = 0 →
      ∃ d', NRF24L01_ReceivePacket b buffer fuel d = some (-1, buffer, d') ∧
        d'.trace = d.trace ++ (txn [0xFF] ++ txn [0x27, s]) ∧
        transactions (txn [0xFF] ++ txn [0x27, s]) = [[0xFF], [0x27, s]]) ∧
    (s &&& 0x40 ≠ 0 → 6 ≤ (s &&& 0x0E) >>> 1 →
      ∃ d', NRF24L01_ReceivePacket b buffer fuel d = some (-1, buffer, d') ∧
        d'.trace = d.trace ++ (txn [0xFF] ++ txn [0x27, s] ++ txn [0xE2]) ∧
        transactions (txn [0xFF] ++ txn [0x27, s] ++ txn [0xE2]) =
          [[0xFF], [0x27, s], [0xE2]]) := by
  have hs2 : d.spi d.k % 256 = s := by rw [← hs, WriteCmd_eq]
  subst hs2
  refine ⟨?_, fun h => ⟨_, ReceivePacket_notReady b buffer fuel d h, rfl, transactions_two _⟩,
    fun h h6 => ⟨_, ReceivePacket_badPipe b buffer fuel d h h6, rfl, transactions_three _⟩⟩
  intro buffer' d' h
  by_cases hr : (d.spi d.k % 256) &&& 0x40 = 0
  · rw [ReceivePacket_notReady b buffer fuel d hr] at h
    simp only [Option.some.injEq, Prod.mk.injEq, true_and] at h
    obtain ⟨h1, h2⟩ := h
    subst h1 h2
    refine ⟨rfl, _, rfl, ?_⟩
    rw [transactions_two]
    intro t ht
    simp only [List.mem_cons, List.mem_singleton, List.not_mem_nil, or_false] at ht
    rcases ht with rfl | rfl <;> simp
  · by_cases hp : ((d.spi d.k % 256) &&& 0x0E) >>> 1 < 6
    · have := ReceivePacket_ready_value b buffer fuel d hr hp _ h
      simp at this
    · rw [ReceivePacket_badPipe b buffer fuel d hr (by omega)] at h
      simp only [Option.some.injEq, Prod.mk.injEq, true_and] at h
      obtain ⟨h1, h2⟩ := h
      subst h1 h2
      refine ⟨rfl, _, rfl, ?_⟩
      rw [transactions_three]
      intro t ht
      simp only [List.mem_cons, List.mem_singleton, List.not_mem_nil, or_false] at ht
      rcases ht with rfl | rfl | rfl <;> simp

/-- Witness for C7: status 0x00 gives -1 with the buffer untouched, and
status 0x4E (ready, pipe field 7) gives -1 as well. -/
theorem ReceivePacket_no_packet_witness :
    (NRF24L01_ReceivePacket pollBuild [9, 9, 9, 9] 5 (idleDev 0)).map
      (fun r => (r.1, r.2.1)) = some (-1, [9, 9, 9, 9]) ∧
    (NRF24L01_ReceivePacket pollBuild [9, 9, 9, 9] 5 (idleDev 0x4E)).map
      (fun r => (r.1, r.2.1)) = some (-1, [9, 9, 9, 9]) := by
  obtain ⟨d1, h1, _⟩ := (ReceivePacket_no_packet pollBuild [9, 9, 9, 9] 5 (idleDev 0) 0
    (by decide)).2.1 (by decide)
  obtain ⟨d2, h2, _⟩ := (ReceivePacket_no_packet pollBuild [9, 9, 9, 9] 5 (idleDev 0x4E) 0x4E
    (by decide)).2.2 (by decide) (by decide)
  rw [h1, h2]
  exact ⟨rfl, rfl⟩

/-! ## Claims about `NRF24L01_Init` -/

theorem transAux_csHigh_none (es : List Ev) :
    transAux none (Ev.csHigh :: es) = transAux none es := rfl

theorem transactions_init (b : Build) (cfg : InitTypeDef) :
    transactions (initTrace b cfg) =
      [[0x20, configByte b], [0x23, 0x03], [0x21, 0x00], [0x22, 0x00],
       [0x24, (cfg.retryDelay % 16) * 16 + cfg.retryTimes % 16],
       [0x25, cfg.channelOffset % 256],
       [0x26, (cfg.transferSpeed ||| cfg.transferPower) % 256],
       [0x31, b.PACKET_SIZE % 256], [0x32, b.PACKET_SIZE % 256], [0x33, b.PACKET_SIZE % 256],
       [0x34, b.PACKET_SIZE % 256], [0x35, b.PACKET_SIZE % 256], [0x36, b.PACKET_SIZE % 256],
       [0xE2], [0xE1], [0x00, 0x00]] := by
  have e : txn [0x00, 0x00] = txn [0x00, 0x00] ++ [] := by simp
  unfold transactions initTrace
  simp only [List.append_assoc, List.cons_append, List.nil_append, transAux_csHigh_none,
    transAux_enLow]
  rw [e]
  simp only [transAux_txn]
  rfl

/-- C8: for every configuration record, `NRF24L01_Init` writes the
retry-config register (opcode 0x24) exactly once, and the byte written is
`(retryDelay mod 16) * 16 + (retryTimes mod 16)`: its high nibble is the masked
delay and its low nibble the masked count. -/
theorem Init_retry_config_byte (b : Build) (cfg : InitTypeDef) (d : Dev) :
    (transactions (emitted d (NRF24L01_Init b cfg d).2.2)).filter
        (fun t => t.head? = some 0x24) =
      [[0x24, (cfg.retryDelay % 16) * 16 + cfg.retryTimes % 16]] ∧
    ((cfg.retryDelay % 16) * 16 + cfg.retryTimes % 16) / 16 = cfg.retryDelay % 16 ∧
    ((cfg.retryDelay % 16) * 16 + cfg.retryTimes % 16) % 16 = cfg.retryTimes % 16 ∧
    (cfg.retryDelay % 16) * 16 + cfg.retryTimes % 16 < 256 := by
  refine ⟨?_, by omega, by omega, by omega⟩
  rw [Init_emitted, transactions_init]
  simp [List.filter_cons]

theorem Init_lastAnswer (b : Build) (cfg : InitTypeDef) (d : Dev) :
    lastAnswer (NRF24L01_Init b cfg d).2.2 = cfg.writeDataCallBk (d.k + 29) % 256 := by
  rw [Init_eq]
  simp [lastAnswer]

theorem Init_code (b : Build) (cfg : InitTypeDef) (d : Dev) :
    (NRF24L01_Init b cfg d).1 =
      if lastAnswer (NRF24L01_Init b cfg d).2.2 = configByte b then Code.DONE
      else Code.FAILED := by
  rw [Init_lastAnswer, Init_eq]

/-- C9: `NRF24L01_Init` returns Done exactly when the byte read back from
register 0x00 in its last transaction equals the config byte it wrote in its
first transaction (0x7E in the polling build, 0x0E in the interrupt build),
and Failed for every other read-back byte; two runs whose read-back bytes
agree return the same result, whatever else the devices answered. -/
theorem Init_result (b : Build) (cfg : InitTypeDef) (d : Dev) :
    ((NRF24L01_Init b cfg d).1 = Code.DONE ↔
      lastAnswer (NRF24L01_Init b cfg d).2.2 = configByte b) ∧
    ((NRF24L01_Init b cfg d).1 = Code.FAILED ↔
      lastAnswer (NRF24L01_Init b cfg d).2.2 ≠ configByte b) ∧
    (transactions (emitted d (NRF24L01_Init b cfg d).2.2)).head? = some [0x20, configByte b] ∧
    (transactions (emitted d (NRF24L01_Init b cfg d).2.2)).getLast? = some [0x00, 0x00] ∧
    configByte b = (if b.USE_IT then 0x0E else 0x7E) ∧
    (∀ (cfg2 : InitTypeDef) (d2 : Dev),
      lastAnswer (NRF24L01_Init b cfg2 d2).2.2 = lastAnswer (NRF24L01_Init b cfg d).2.2 →
      (NRF24L01_Init b cfg2 d2).1 = (NRF24L01_Init b cfg d).1) := by
  refine ⟨?_, ?_, ?_, ?_, rfl, ?_⟩
  · rw [Init_code]
    by_cases h : lastAnswer (NRF24L01_Init b cfg d).2.2 = configByte b <;> simp [h]
  · rw [Init_code]
    by_cases h : lastAnswer (NRF24L01_Init b cfg d).2.2 = configByte b <;> simp [h]
  · rw [Init_emitted, transactions_init]; rfl
  · rw [Init_emitted, transactions_init]; rfl
  · intro cfg2 d2 h
    rw [Init_code b cfg2 d2, Init_code b cfg d, h]

/-- Witness for C9: a device that reads back 0x7E gives Done in the polling
build, as does any other run with the same read-back. -/
theorem Init_result_witness :
    (NRF24L01_Init pollBuild (sampleConfig 0x7E) (idleDev 0)).1 = Code.DONE ∧
    (NRF24L01_Init pollBuild (sampleConfig 0x17E) flickerDev).1 = Code.DONE := by
  have w := Init_result pollBuild (sampleConfig 0x7E) (idleDev 0)
  exact ⟨w.1.2 (by decide), (w.2.2.2.2.2 (sampleConfig 0x17E) flickerDev (by decide)).trans
    (w.1.2 (by decide))⟩

theorem initTrace_masked (b : Build) (cfg : InitTypeDef) :
    initTrace b { cfg with retryDelay := cfg.retryDelay &&& 0x0f,
                           retryTimes := cfg.retryTimes &&& 0x0f } = initTrace b cfg := by
  have h1 : cfg.retryDelay &&& 0x0f = cfg.retryDelay % 16 :=
    Nat.and_pow_two_sub_one_eq_mod _ 4
  have h2 : cfg.retryTimes &&& 0x0f = cfg.retryTimes % 16 :=
    Nat.and_pow_two_sub_one_eq_mod _ 4
  simp only [initTrace, h1, h2, Nat.mod_mod]

theorem mask_idem (x : Nat) : (x &&& 0x0f) &&& 0x0f = x &&& 0x0f := by
  rw [Nat.land_assoc]; rfl

/-- C10: running `NRF24L01_Init` again on the record left by a first run
emits the same sequence of register writes and commands as the first run,
leaves the record as it is, and returns the same result when the device
answers the config read-back of the second run as it did in the first. -/
theorem Init_idempotent (b : Build) (cfg : InitTypeDef) (d : Dev) :
    emitted (NRF24L01_Init b cfg d).2.2
        (NRF24L01_Init b (NRF24L01_Init b cfg d).2.1 (NRF24L01_Init b cfg d).2.2).2.2 =
      emitted d (NRF24L01_Init b cfg d).2.2 ∧
    (NRF24L01_Init b (NRF24L01_Init b cfg d).2.1 (NRF24L01_Init b cfg d).2.2).2.1 =
      (NRF24L01_Init b cfg d).2.1 ∧
    (lastAnswer (NRF24L01_Init b (NRF24L01_Init b cfg d).2.1 (NRF24L01_Init b cfg d).2.2).2.2 =
        lastAnswer (NRF24L01_Init b cfg d).2.2 →
      (NRF24L01_Init b (NRF24L01_Init b cfg d).2.1 (NRF24L01_Init b cfg d).2.2).1 =
        (NRF24L01_Init b cfg d).1) := by
  refine ⟨?_, ?_, fun h => ?_⟩
  · rw [Init_emitted, Init_emitted]
    rw [Init_eq]
    exact initTrace_masked b cfg
  · rw [Init_eq b cfg d]
    rw [Init_eq]
    simp only [mask_idem]
  · rw [Init_code b _ _, h, ← Init_code]

/-- Witness for C10: two runs in a row against a device that always reads
back 0x7E both return Done. -/
theorem Init_idempotent_witness :
    (NRF24L01_Init pollBuild (NRF24L01_Init pollBuild (sampleConfig 0x7E) (idleDev 0)).2.1
      (NRF24L01_Init pollBuild (sampleConfig 0x7E) (idleDev 0)).2.2).1 = Code.DONE :=
  ((Init_idempotent pollBuild (sampleConfig 0x7E) (idleDev 0)).2.2 (by decide)).trans
    (by decide)

/-! ## Address programming -/

theorem storedPrefix_eq (n : Nat) : storedPrefix n = 65536 * (n % 65536) := by
  unfold storedPrefix
  rw [Nat.shiftLeft_eq]
  omega

theorem prefix_or (n a : Nat) (ha : a < 65536) :
    storedPrefix n ||| a = 65536 * (n % 65536) + a := by
  rw [storedPrefix_eq]
  exact (Nat.mul_add_lt_is_or (i := 16) (by simpa using ha) (n % 65536)).symm

theorem addrPayload_stored (n a : Nat) (ha : a < 65536) :
    addrPayload (storedPrefix n) a = [a % 256, a / 256, n % 256, n / 256 % 256, 0xE7] := by
  unfold addrPayload
  rw [prefix_or n a ha]
  simp only [Nat.shiftRight_eq_div_pow]
  have e1 : (65536 * (n % 65536) + a) % 256 = a % 256 := by omega
  have e2 : (65536 * (n % 65536) + a) / 2 ^ 8 % 256 = a / 256 := by omega
  have e3 : (65536 * (n % 65536) + a) / 2 ^ 8 / 2 ^ 8 % 256 = n % 256 := by omega
  have e4 : (65536 * (n % 65536) + a) / 2 ^ 8 / 2 ^ 8 / 2 ^ 8 % 256 = n / 256 % 256 := by omega
  rw [e1, e2, e3, e4]

theorem Tx_SetTargetAddr_eq (a : Nat) (d : Dev) :
    NRF24L01_Tx_SetTargetAddr a d =
      { d with cs := true, k := d.k + 6,
               trace := d.trace ++ txn (0x30 :: addrPayload d.addr_prefix (a % 65536)) } := by
  simp [NRF24L01_Tx_SetTargetAddr, _spi_write_byte, NRF24L01_CS_LOW, NRF24L01_CS_HIGH, txn,
    addrPayload, _WR_OFFSET, NRF24L01_TX_ADDR_REG, ADDR_FIXED_PREFIX]

theorem Rx_SetPipeAddr_low (p a : Nat) (d : Dev) (hp : p % 256 < 2) :
    NRF24L01_Rx_SetPipeAddr p a d =
      { d with cs := true, k := d.k + 6,
               trace := d.trace ++
                 txn ((0x2A + p % 256) :: addrPayload d.addr_prefix (a % 65536)) } := by
  have e : (32 + (10 + p % 256)) % 256 = 42 + p % 256 := by omega
  simp [NRF24L01_Rx_SetPipeAddr, hp, _spi_write_byte, NRF24L01_CS_LOW, NRF24L01_CS_HIGH, txn,
    addrPayload, _WR_OFFSET, NRF24L01_RX_PIPEx_ADDR_REG, ADDR_FIXED_PREFIX, e]

theorem Rx_SetPipeAddr_high (p a : Nat) (d : Dev) (hp : ¬ p % 256 < 2) :
    NRF24L01_Rx_SetPipeAddr p a d =
      { d with cs := true, k := d.k + 2,
               trace := d.trace ++
                 txn [(0x20 ||| (0x0A + p % 256) % 256) % 256, a % 65536 % 256] } := by
  simp [NRF24L01_Rx_SetPipeAddr, hp, WriteReg_eq, _WR_OFFSET, NRF24L01_RX_PIPEx_ADDR_REG]

theorem transactions_txn (bs : List Nat) : transactions (txn bs) = [bs] := by
  have e : txn bs = txn bs ++ [] := by simp
  unfold transactions
  rw [e, transAux_txn]
  rfl

theorem emitted_append (d : Dev) (E : List Ev) (d' : Dev) (h : d'.trace = d.trace ++ E) :
    emitted d d' = E := by
  rw [emitted, h, List.drop_left]

theorem Init_addr_prefix (b : Build) (cfg : InitTypeDef) (d : Dev) :
    Dev.addr_prefix (NRF24L01_Init b cfg d).2.2 = storedPrefix cfg.networkId := by
  rw [Init_eq]
  rfl

theorem prefix_bytes (n : Nat) :
    (n <<< 16) / 2 ^ 16 % 256 = n % 256 ∧ (n <<< 16) / 2 ^ 24 % 256 = n / 256 % 256 := by
  rw [Nat.shiftLeft_eq]
  constructor <;> omega

/-- C13: with the prefix that `NRF24L01_Init` stores for network id `n` and a
16-bit address `a`, `NRF24L01_Tx_SetTargetAddr(a)` and
`NRF24L01_Rx_SetPipeAddr(p, a)` for `p < 2` each emit exactly one transaction:
the write opcode (0x30, respectively 0x2A + p, the register address OR 0x20)
followed by `a mod 256`, `a div 256`, bits 16..23 of `n << 16`, bits 24..31
of `n << 16` and 0xE7.  The two prefix bytes are the two low bytes of `n`. -/
theorem address_transaction (n a p : Nat) (d : Dev) (ha : a < 65536) (hp : p < 2)
    (hn : d.addr_prefix = storedPrefix n) :
    emitted d (NRF24L01_Tx_SetTargetAddr a d) =
      txn [0x30, a % 256, a / 256, (n <<< 16) / 2 ^ 16 % 256, (n <<< 16) / 2 ^ 24 % 256,
        0xE7] ∧
    emitted d (NRF24L01_Rx_SetPipeAddr p a d) =
      txn [0x2A + p, a % 256, a / 256, (n <<< 16) / 2 ^ 16 % 256, (n <<< 16) / 2 ^ 24 % 256,
        0xE7] ∧
    transactions (emitted d (NRF24L01_Tx_SetTargetAddr a d)) =
      [[0x30, a % 256, a / 256, n % 256, n / 256 % 256, 0xE7]] ∧
    transactions (emitted d (NRF24L01_Rx_SetPipeAddr p a d)) =
      [[0x2A + p, a % 256, a / 256, n % 256, n / 256 % 256, 0xE7]] ∧
    0x30 = NRF24L01_TX_ADDR_REG ||| 0x20 ∧
    0x2A + p = NRF24L01_RX_PIPEx_ADDR_REG p ||| 0x20 ∧
    (∀ (b : Build) (cfg : InitTypeDef) (d0 : Dev),
      Dev.addr_prefix (NRF24L01_Init b cfg d0).2.2 = storedPrefix cfg.networkId) := by
  have ha' : a % 65536 = a := Nat.mod_eq_of_lt ha
  have hp' : p % 256 = p := Nat.mod_eq_of_lt (by omega)
  obtain ⟨b1, b2⟩ := prefix_bytes n
  have eT : emitted d (NRF24L01_Tx_SetTargetAddr a d) =
      txn [0x30, a % 256, a / 256, n % 256, n / 256 % 256, 0xE7] := by
    apply emitted_append
    rw [Tx_SetTargetAddr_eq, hn, ha', addrPayload_stored n a ha]
  have eR : emitted d (NRF24L01_Rx_SetPipeAddr p a d) =
      txn [0x2A + p, a % 256, a / 256, n % 256, n / 256 % 256, 0xE7] := by
    apply emitted_append
    rw [Rx_SetPipeAddr_low p a d (by omega), hn, ha', hp', addrPayload_stored n a ha]
  refine ⟨by rw [eT, b1, b2], by rw [eR, b1, b2], by rw [eT, transactions_txn],
    by rw [eR, transactions_txn], by decide, ?_, Init_addr_prefix⟩
  have : p = 0 ∨ p = 1 := by omega
  rcases this with rfl | rfl <;> decide

/-- Witness for C13: network id 0x1234 and address 0xBEEF give the bytes
0xEF, 0xBE, 0x34, 0x12, 0xE7 after the opcode 0x2B of pipe 1. -/
theorem address_transaction_witness :
    transactions (emitted txDev (NRF24L01_Rx_SetPipeAddr 1 0xBEEF txDev)) =
      [[0x2B, 0xEF, 0xBE, 0x34, 0x12, 0xE7]] :=
  (address_transaction 0x1234 0xBEEF 1 txDev (by decide) (by decide) rfl).2.2.2.1

/-- C20: for a pipe index `p` in 2..5 and a 16-bit address `a`,
`NRF24L01_Rx_SetPipeAddr(p, a)` emits exactly one transaction, the two bytes
`0x20 OR (0x0A + p)` and `a mod 256`; the opcode is 0x2A + p, so neither
pipe 0 nor pipe 1 is written, and the trace is the same for every stored
prefix and every high byte of the address. -/
theorem Rx_SetPipeAddr_upper (p a : Nat) (d : Dev) (hp2 : 2 ≤ p) (hp5 : p ≤ 5)
    (ha : a < 65536) :
    emitted d (NRF24L01_Rx_SetPipeAddr p a d) = txn [0x20 ||| (0x0A + p), a % 256] ∧
    transactions (emitted d (NRF24L01_Rx_SetPipeAddr p a d)) =
      [[0x20 ||| (0x0A + p), a % 256]] ∧
    0x20 ||| (0x0A + p) = 0x2A + p ∧
    (∀ t, t ∈ transactions (emitted d (NRF24L01_Rx_SetPipeAddr p a d)) →
      t.head? ≠ some 0x2A ∧ t.head? ≠ some 0x2B) ∧
    (∀ (a' : Nat) (d' : Dev), a' < 65536 → a' % 256 = a % 256 →
      emitted d' (NRF24L01_Rx_SetPipeAddr p a' d') =
        emitted d (NRF24L01_Rx_SetPipeAddr p a d)) := by
  have hp' : p % 256 = p := Nat.mod_eq_of_lt (by omega)
  have hop : 0x20 ||| (0x0A + p) = 0x2A + p := by
    have : p = 2 ∨ p = 3 ∨ p = 4 ∨ p = 5 := by omega
    rcases this with rfl | rfl | rfl | rfl <;> decide
  have key : ∀ (a' : Nat) (d' : Dev), a' < 65536 →
      emitted d' (NRF24L01_Rx_SetPipeAddr p a' d') = txn [0x20 ||| (0x0A + p), a' % 256] := by
    intro a' d' ha'
    apply emitted_append
    rw [Rx_SetPipeAddr_high p a' d' (by omega), hp', Nat.mod_eq_of_lt ha',
      Nat.mod_eq_of_lt (show 0x0A + p < 256 by omega), hop,
      Nat.mod_eq_of_lt (show 0x2A + p < 256 by omega)]
  refine ⟨key a d ha, by rw [key a d ha, transactions_txn], hop, ?_, ?_⟩
  · intro t ht
    rw [key a d ha, transactions_txn, List.mem_singleton] at ht
    subst ht
    rw [hop]
    simp only [List.head?_cons, ne_eq, Option.some.injEq]
    constructor <;> omega
  · intro a' d' ha' hlow
    rw [key a' d' ha', key a d ha, hlow]

/-- Witness for C20: pipe 3 and address 0xBEEF give the single write
`[0x2D, 0xEF]`. -/
theorem Rx_SetPipeAddr_upper_witness :
    transactions (emitted txDev (NRF24L01_Rx_SetPipeAddr 3 0xBEEF txDev)) = [[0x2D, 0xEF]] :=
  (Rx_SetPipeAddr_upper 3 0xBEEF txDev (by decide) (by decide) (by decide)).2.1

/-! ## Pipe enabling -/

theorem pipeBit_lt (p s old : Nat) : pipeBit p s old < 256 := by
  unfold pipeBit
  split <;> exact Nat.mod_lt _ (by decide)

theorem pipeBit_state (p s old : Nat) (hs : s ≠ 0) : pipeBit p s old = pipeBit p 1 old := by
  simp [pipeBit, hs]

set_option maxRecDepth 1000000 in
theorem pipeBit_set_bits : ∀ p, p < 6 → ∀ old, old < 256 →
    pipeBit p 1 old / 2 ^ (p + 1) = old / 2 ^ (p + 1) ∧ pipeBit p 1 old % 2 ^ p = old % 2 ^ p ∧
    pipeBit p 1 old / 2 ^ p % 2 = 1 := by
  decide

set_option maxRecDepth 1000000 in
theorem pipeBit_clear_bits : ∀ p, p < 6 → ∀ old, old < 256 →
    pipeBit p 0 old / 2 ^ (p + 1) = old / 2 ^ (p + 1) ∧ pipeBit p 0 old % 2 ^ p = old % 2 ^ p ∧
    pipeBit p 0 old / 2 ^ p % 2 = 0 := by
  decide

theorem Rx_PipeCmd_noack (b : Build) (hb : b.USE_ACK = false) (p s : Nat) (d : Dev) :
    NRF24L01_Rx_PipeCmd b p s d =
      { d with cs := true, k := d.k + 4,
               trace := d.trace ++ (txn [0x02, 0x00] ++
                 txn [0x22, pipeBit (p % 256) (s % 256) (d.spi (d.k + 1) % 256)]) } := by
  have h := Nat.mod_eq_of_lt (pipeBit_lt (p % 256) (s % 256) (d.spi (d.k + 1) % 256))
  simp [NRF24L01_Rx_PipeCmd, hb, ReadReg_eq, WriteReg_eq, NRF24L01_RX_PIPE_EN_REG, _WR_OFFSET,
    h, Nat.add_assoc]

theorem Rx_PipeCmd_ack (b : Build) (hb : b.USE_ACK = true) (p s : Nat) (d : Dev) :
    NRF24L01_Rx_PipeCmd b p s d =
      { d with cs := true, k := d.k + 8,
               trace := d.trace ++ (txn [0x01, 0x00] ++
                 txn [0x21, pipeBit (p % 256) (s % 256) (d.spi (d.k + 1) % 256)] ++
                 txn [0x02, 0x00] ++
                 txn [0x22, pipeBit (p % 256) (s % 256) (d.spi (d.k + 5) % 256)]) } := by
  have h1 := Nat.mod_eq_of_lt (pipeBit_lt (p % 256) (s % 256) (d.spi (d.k + 1) % 256))
  have h2 := Nat.mod_eq_of_lt (pipeBit_lt (p % 256) (s % 256) (d.spi (d.k + 5) % 256))
  simp [NRF24L01_Rx_PipeCmd, hb, ReadReg_eq, WriteReg_eq, NRF24L01_RX_PIPE_EN_REG,
    NRF24L01_AUTO_ACK_REG, _WR_OFFSET, h1, h2, Nat.add_assoc]

/-! ## The four paths of `NRF24L01_SwitchMode` -/

theorem SwitchMode_same_tx (b : Build) (m a : Nat) (d : Dev)
    (hm : m % 256 = 0) (hc : oldModeOf d &&& 1 = 0) :
    NRF24L01_SwitchMode b m a d =
      { d with cs := true, en := false, k := d.k + preludeLen b + 6,
               trace := d.trace ++ (modePrelude b (a % 65536) d ++
                 txn (0x30 :: addrPayload d.addr_prefix (a % 65536))) } := by
  unfold oldModeOf at hc
  cases hb : b.USE_ACK
  · simp [NRF24L01_SwitchMode, hb, hm, hc, ReadReg_eq, NRF24L01_EN_LOW, Tx_SetTargetAddr_eq,
      NRF24L01_CONFIG_REG, NRF24L01_CONFIG_MODE_MASK, NRF24L01_CONFIG_MODE_TX, modePrelude,
      preludeLen, Nat.add_assoc]
  · simp [NRF24L01_SwitchMode, hb, hm, hc, ReadReg_eq, NRF24L01_EN_LOW, Tx_SetTargetAddr_eq,
      NRF24L01_CONFIG_REG, NRF24L01_CONFIG_MODE_MASK, NRF24L01_CONFIG_MODE_TX, modePrelude,
      preludeLen, Rx_PipeCmd_ack, Rx_SetPipeAddr_low, ackPrelude, Nat.add_assoc]

theorem SwitchMode_same_rx (b : Build) (m a : Nat) (d : Dev)
    (hm : m % 256 ≠ 0) (hc : oldModeOf d &&& 1 = m % 256) :
    NRF24L01_SwitchMode b m a d =
      { d with cs := true, en := false, k := d.k + preludeLen b,
               trace := d.trace ++ modePrelude b (a % 65536) d } := by
  unfold oldModeOf at hc
  cases hb : b.USE_ACK
  · simp [NRF24L01_SwitchMode, hb, hm, hc, ReadReg_eq, NRF24L01_EN_LOW,
      NRF24L01_CONFIG_REG, NRF24L01_CONFIG_MODE_MASK, NRF24L01_CONFIG_MODE_TX, modePrelude,
      preludeLen, Nat.add_assoc]
  · simp [NRF24L01_SwitchMode, hb, hm, hc, ReadReg_eq, NRF24L01_EN_LOW,
      NRF24L01_CONFIG_REG, NRF24L01_CONFIG_MODE_MASK, NRF24L01_CONFIG_MODE_TX, modePrelude,
      preludeLen, Rx_PipeCmd_ack, Rx_SetPipeAddr_low, ackPrelude, Nat.add_assoc]

theorem SwitchMode_to_tx (b : Build) (m a : Nat) (d : Dev)
    (hm : m % 256 = 0) (hc : oldModeOf d &&& 1 ≠ 0) :
    NRF24L01_SwitchMode b m a d =
      { d with cs := true, en := false, k := d.k + preludeLen b + pipe0Len b + 8,
               trace := d.trace ++ (modePrelude b (a % 65536) d ++ pipe0Switch b 0 d ++
                 txn (0x30 :: addrPayload d.addr_prefix (a % 65536)) ++
                 txn [0x20, oldModeOf d &&& 0xFE]) } := by
  have hw : (oldModeOf d &&& 0xFE) % 256 = oldModeOf d &&& 0xFE :=
    Nat.mod_eq_of_lt (Nat.lt_of_le_of_lt Nat.and_le_right (by decide))
  unfold oldModeOf at hc hw ⊢
  rw [Nat.and_one_is_mod] at hc
  have hc : d.spi (d.k + 1) % 256 % 2 = 1 := by omega
  cases hb : b.USE_ACK
  · simp [NRF24L01_SwitchMode, hb, hm, hc, hw, ReadReg_eq, WriteReg_eq, NRF24L01_EN_LOW,
      Tx_SetTargetAddr_eq, NRF24L01_CONFIG_REG, NRF24L01_CONFIG_MODE_MASK,
      NRF24L01_CONFIG_MODE_TX, modePrelude, preludeLen, pipe0Switch, pipe0Len,
      Rx_PipeCmd_noack, _WR_OFFSET, Nat.add_assoc]
  · simp [NRF24L01_SwitchMode, hb, hm, hc, hw, ReadReg_eq, WriteReg_eq, NRF24L01_EN_LOW,
      Tx_SetTargetAddr_eq, NRF24L01_CONFIG_REG, NRF24L01_CONFIG_MODE_MASK,
      NRF24L01_CONFIG_MODE_TX, modePrelude, preludeLen, pipe0Switch, pipe0Len,
      Rx_PipeCmd_ack, Rx_SetPipeAddr_low, ackPrelude, _WR_OFFSET, Nat.add_assoc]

theorem SwitchMode_to_rx (b : Build) (m a : Nat) (d : Dev)
    (hm : m % 256 ≠ 0) (hc : oldModeOf d &&& 1 ≠ m % 256) :
    NRF24L01_SwitchMode b m a d =
      { d with cs := true, en := true, k := d.k + preludeLen b + pipe0Len b + 3,
               trace := d.trace ++ (modePrelude b (a % 65536) d ++ pipe0Switch b 1 d ++
                 txn [0x20, oldModeOf d ||| 0x01] ++ txn [0xE2] ++ [Ev.enHigh]) } := by
  have hw : (oldModeOf d ||| 0x01) % 256 = oldModeOf d ||| 0x01 :=
    Nat.mod_eq_of_lt (Nat.or_lt_two_pow (n := 8) (Nat.mod_lt _ (by decide)) (by decide))
  unfold oldModeOf at hc hw ⊢
  rw [Nat.and_one_is_mod] at hc
  cases hb : b.USE_ACK
  · simp [NRF24L01_SwitchMode, hb, hm, hc, hw, ReadReg_eq, WriteReg_eq, WriteCmd_eq,
      NRF24L01_EN_LOW, NRF24L01_EN_HIGH, NRF24L01_CONFIG_REG, NRF24L01_CONFIG_MODE_MASK,
      NRF24L01_CONFIG_MODE_TX, NRF24L01_CONFIG_MODE_RX, modePrelude, preludeLen, pipe0Switch,
      pipe0Len, Rx_PipeCmd_noack, _WR_OFFSET, _CMD_FLUSH_RX, Nat.add_assoc]
  · simp [NRF24L01_SwitchMode, hb, hm, hc, hw, ReadReg_eq, WriteReg_eq, WriteCmd_eq,
      NRF24L01_EN_LOW, NRF24L01_EN_HIGH, NRF24L01_CONFIG_REG, NRF24L01_CONFIG_MODE_MASK,
      NRF24L01_CONFIG_MODE_TX, NRF24L01_CONFIG_MODE_RX, modePrelude, preludeLen, pipe0Switch,
      pipe0Len, Rx_PipeCmd_ack, Rx_SetPipeAddr_low, ackPrelude, _WR_OFFSET, _CMD_FLUSH_RX,
      Nat.add_assoc]

/-! ## Transactions of the mode-switch traces -/

theorem transAux_nil (cur : Option (List Nat)) : transAux cur [] = [] := by
  cases cur <;> rfl

theorem transAux_txn_nil (bs : List Nat) : transAux none (txn bs) = [bs] :=
  transactions_txn bs

theorem oldModeOf_eq (d : Dev) :
    (_ReadReg NRF24L01_CONFIG_REG (NRF24L01_EN_LOW d)).1 = oldModeOf d := by
  rw [ReadReg_eq]
  rfl

theorem transactions_modePrelude (b : Build) (a : Nat) (d : Dev) (rest : List Ev) :
    transactions (modePrelude b a d ++ rest) =
      [0x00, 0x00] ::
        ((if b.USE_ACK then
            [0x2A :: addrPayload d.addr_prefix a, [0x01, 0x00],
              [0x21, pipeBit 0 1 (d.spi (d.k + 9) % 256)], [0x02, 0x00],
              [0x22, pipeBit 0 1 (d.spi (d.k + 13) % 256)]]
          else []) ++ transactions rest) := by
  unfold transactions modePrelude ackPrelude
  cases b.USE_ACK <;>
  simp only [List.append_assoc, List.singleton_append, List.nil_append, List.cons_append,
    transAux_enLow, transAux_txn, if_true, if_false, Bool.false_eq_true]

theorem transactions_pipe0Switch (b : Build) (st : Nat) (d : Dev) (rest : List Ev) :
    transactions (pipe0Switch b st d ++ rest) =
      (if b.USE_ACK then []
        else [[0x02, 0x00], [0x22, pipeBit 0 st (d.spi (d.k + 3) % 256)]]) ++
        transactions rest := by
  unfold transactions pipe0Switch
  cases b.USE_ACK <;>
  simp only [List.append_assoc, List.singleton_append, List.nil_append, List.cons_append,
    transAux_txn, if_true, if_false, Bool.false_eq_true]

theorem transactions_same_tx (b : Build) (m a : Nat) (d : Dev)
    (hm : m % 256 = 0) (hc : oldModeOf d &&& 1 = 0) :
    transactions (emitted d (NRF24L01_SwitchMode b m a d)) =
      [0x00, 0x00] ::
        ((if b.USE_ACK then
            [0x2A :: addrPayload d.addr_prefix (a % 65536), [0x01, 0x00],
              [0x21, pipeBit 0 1 (d.spi (d.k + 9) % 256)], [0x02, 0x00],
              [0x22, pipeBit 0 1 (d.spi (d.k + 13) % 256)]]
          else []) ++ [0x30 :: addrPayload d.addr_prefix (a % 65536)]) := by
  rw [emitted_append d _ _ (by rw [SwitchMode_same_tx b m a d hm hc]),
    transactions_modePrelude, transactions_txn]

theorem transactions_same_rx (b : Build) (m a : Nat) (d : Dev)
    (hm : m % 256 ≠ 0) (hc : oldModeOf d &&& 1 = m % 256) :
    transactions (emitted d (NRF24L01_SwitchMode b m a d)) =
      [0x00, 0x00] ::
        (if b.USE_ACK then
            [0x2A :: addrPayload d.addr_prefix (a % 65536), [0x01, 0x00],
              [0x21, pipeBit 0 1 (d.spi (d.k + 9) % 256)], [0x02, 0x00],
              [0x22, pipeBit 0 1 (d.spi (d.k + 13) % 256)]]
          else []) := by
  have e : modePrelude b (a % 65536) d = modePrelude b (a % 65536) d ++ [] := by simp
  rw [emitted_append d _ _ (by rw [SwitchMode_same_rx b m a d hm hc]), e,
    transactions_modePrelude]
  simp [transactions, transAux_nil]

theorem transactions_to_tx (b : Build) (m a : Nat) (d : Dev)
    (hm : m % 256 = 0) (hc : oldModeOf d &&& 1 ≠ 0) :
    transactions (emitted d (NRF24L01_SwitchMode b m a d)) =
      [0x00, 0x00] ::
        ((if b.USE_ACK then
            [0x2A :: addrPayload d.addr_prefix (a % 65536), [0x01, 0x00],
              [0x21, pipeBit 0 1 (d.spi (d.k + 9) % 256)], [0x02, 0x00],
              [0x22, pipeBit 0 1 (d.spi (d.k + 13) % 256)]]
          else []) ++
         ((if b.USE_ACK then []
            else [[0x02, 0x00], [0x22, pipeBit 0 0 (d.spi (d.k + 3) % 256)]]) ++
          [0x30 :: addrPayload d.addr_prefix (a % 65536), [0x20, oldModeOf d &&& 0xFE]])) := by
  rw [emitted_append d _ _ (by rw [SwitchMode_to_tx b m a d hm hc]), List.append_assoc,
    List.append_assoc, transactions_modePrelude, transactions_pipe0Switch]
  simp only [transactions, transAux_txn, transAux_txn_nil]

theorem transactions_to_rx (b : Build) (m a : Nat) (d : Dev)
    (hm : m % 256 ≠ 0) (hc : oldModeOf d &&& 1 ≠ m % 256) :
    transactions (emitted d (NRF24L01_SwitchMode b m a d)) =
      [0x00, 0x00] ::
        ((if b.USE_ACK then
            [0x2A :: addrPayload d.addr_prefix (a % 65536), [0x01, 0x00],
              [0x21, pipeBit 0 1 (d.spi (d.k + 9) % 256)], [0x02, 0x00],
              [0x22, pipeBit 0 1 (d.spi (d.k + 13) % 256)]]
          else []) ++
         ((if b.USE_ACK then []
            else [[0x02, 0x00], [0x22, pipeBit 0 1 (d.spi (d.k + 3) % 256)]]) ++
          [[0x20, oldModeOf d ||| 0x01], [0xE2]])) := by
  rw [emitted_append d _ _ (by rw [SwitchMode_to_rx b m a d hm hc]), List.append_assoc,
    List.append_assoc, List.append_assoc, transactions_modePrelude, transactions_pipe0Switch]
  simp only [transactions, transAux_txn, transAux_enHigh, transAux_nil]

/-! ## Claims about `NRF24L01_SwitchMode` -/

/-- C11, the claim as stated fails in the acknowledge build: after a first
`NRF24L01_SwitchMode(Receive, 0xBEEF)` the config register reads back with
the mode bit set, and a second identical call still writes the pipe-0
address, the auto-acknowledge register and the RX-pipe-enable register. -/
theorem SwitchMode_repeat_counterexample :
    ackBuild.USE_ACK = true ∧
    oldModeOf (NRF24L01_SwitchMode ackBuild 1 0xBEEF modalDev) &&& 1 = 1 ∧
    transactions (emitted (NRF24L01_SwitchMode ackBuild 1 0xBEEF modalDev)
        (NRF24L01_SwitchMode ackBuild 1 0xBEEF
          (NRF24L01_SwitchMode ackBuild 1 0xBEEF modalDev))) =
      [[0x00, 0x00], [0x2A, 0xEF, 0xBE, 0x34, 0x12, 0xE7], [0x01, 0x00], [0x21, 0x0F],
       [0x02, 0x00], [0x22, 0x0F]] := by
  decide

/-- C11 as amended: when the config byte read at the start of
`NRF24L01_SwitchMode(mode, addr)` has bit 0 equal to the target mode, the call
emits no transaction with the config write opcode 0x20.  Without acknowledge
its transactions are the config read followed, for Transmit, by the write of
the transmit address (opcode 0x30), and for Receive by nothing.  With
acknowledge the pipe-0 address write and the two read-modify-writes of
registers 0x01 and 0x02 come in between. -/
theorem SwitchMode_repeat (b : Build) (m a : Nat) (d : Dev) (hm : m = 0 ∨ m = 1)
    (hc : (_ReadReg NRF24L01_CONFIG_REG (NRF24L01_EN_LOW d)).1 &&& 1 = m) :
    (∀ t, t ∈ transactions (emitted d (NRF24L01_SwitchMode b m a d)) →
      t.head? ≠ some 0x20) ∧
    (b.USE_ACK = false → m = 0 →
      transactions (emitted d (NRF24L01_SwitchMode b m a d)) =
        [[0x00, 0x00], 0x30 :: addrPayload d.addr_prefix (a % 65536)]) ∧
    (b.USE_ACK = false → m = 1 →
      transactions (emitted d (NRF24L01_SwitchMode b m a d)) = [[0x00, 0x00]]) ∧
    (b.USE_ACK = true →
      transactions (emitted d (NRF24L01_SwitchMode b m a d)) =
        [[0x00, 0x00], 0x2A :: addrPayload d.addr_prefix (a % 65536), [0x01, 0x00],
          [0x21, pipeBit 0 1 (d.spi (d.k + 9) % 256)], [0x02, 0x00],
          [0x22, pipeBit 0 1 (d.spi (d.k + 13) % 256)]] ++
        (if m = 0 then [0x30 :: addrPayload d.addr_prefix (a % 65536)] else [])) := by
  rw [oldModeOf_eq] at hc
  rcases hm with rfl | rfl
  · have e := transactions_same_tx b 0 a d rfl hc
    refine ⟨?_, ?_, ?_, ?_⟩
    · intro t ht
      rw [e] at ht
      cases hb : b.USE_ACK <;> simp [hb] at ht <;> rcases ht with h | h <;> simp [h]
      all_goals rcases h with h | h | h | h | h | h <;> simp [h]
    · intro hb _
      rw [e]; simp [hb]
    · intro _ h; simp at h
    · intro hb
      rw [e]; simp [hb]
  · have e := transactions_same_rx b 1 a d (by decide) hc
    refine ⟨?_, ?_, ?_, ?_⟩
    · intro t ht
      rw [e] at ht
      cases hb : b.USE_ACK <;> simp [hb] at ht
      · simp [ht]
      · rcases ht with h | h | h | h | h | h <;> simp [h]
    · intro _ h; simp at h
    · intro hb _
      rw [e]; simp [hb]
    · intro hb
      rw [e]; simp [hb]

/-- Witness for C11 as amended: without acknowledge, a second call for
Receive on a device that reads back the mode bit set only reads the config
register. -/
theorem SwitchMode_repeat_witness :
    transactions (emitted rxDev (NRF24L01_SwitchMode pollBuild 1 0xBEEF rxDev)) =
      [[0x00, 0x00]] :=
  (SwitchMode_repeat pollBuild 1 0xBEEF rxDev (Or.inr rfl) (by decide)).2.2.1 rfl rfl

set_option maxRecDepth 1000000 in
theorem bit0_facts : ∀ r, r < 256 →
    pipeBit 0 1 r = r ||| 1 ∧ (r ||| 1) / 2 = r / 2 ∧ (r ||| 1) % 2 = 1 ∧
    pipeBit 0 0 r = r &&& 0xFE ∧ (r &&& 0xFE) / 2 = r / 2 ∧ (r &&& 0xFE) % 2 = 0 := by
  decide

theorem ackPrelude_stored (n a : Nat) (d : Dev) (ha : a < 65536)
    (hn : d.addr_prefix = storedPrefix n) :
    ackPrelude a d =
      txn [0x2A, a % 256, a / 256, n % 256, n / 256 % 256, 0xE7] ++ txn [0x01, 0x00] ++
        txn [0x21, d.spi (d.k + 9) % 256 ||| 1] ++ txn [0x02, 0x00] ++
        txn [0x22, d.spi (d.k + 13) % 256 ||| 1] := by
  unfold ackPrelude
  rw [hn, addrPayload_stored n a ha,
    (bit0_facts _ (Nat.mod_lt (d.spi (d.k + 9)) (by decide))).1,
    (bit0_facts _ (Nat.mod_lt (d.spi (d.k + 13)) (by decide))).1]

/-- C12: in the acknowledge build every call of `NRF24L01_SwitchMode`, whatever
the target mode and whether or not the mode changes, emits enable-low and
the config read and then writes the pipe-0 address (opcode 0x2A, the five
address bytes of `addr` under the stored network id `n`), reads register
0x01 and writes it back with bit 0 set, reads register 0x02 and writes it
back with bit 0 set; only then follows the part that depends on the mode. -/
theorem SwitchMode_ack_pipe0 (b : Build) (m a n : Nat) (d : Dev) (hb : b.USE_ACK = true)
    (ha : a < 65536) (hn : d.addr_prefix = storedPrefix n) :
    (∃ rest, emitted d (NRF24L01_SwitchMode b m a d) =
        [Ev.enLow] ++ txn [0x00, 0x00] ++
          (txn [0x2A, a % 256, a / 256, n % 256, n / 256 % 256, 0xE7] ++ txn [0x01, 0x00] ++
            txn [0x21, d.spi (d.k + 9) % 256 ||| 1] ++ txn [0x02, 0x00] ++
            txn [0x22, d.spi (d.k + 13) % 256 ||| 1]) ++ rest ∧
      (rest = [] ∨
       rest = txn [0x30, a % 256, a / 256, n % 256, n / 256 % 256, 0xE7] ∨
       rest = txn [0x30, a % 256, a / 256, n % 256, n / 256 % 256, 0xE7] ++
         txn [0x20, oldModeOf d &&& 0xFE] ∨
       rest = txn [0x20, oldModeOf d ||| 0x01] ++ txn [0xE2] ++ [Ev.enHigh])) ∧
    (d.spi (d.k + 9) % 256 ||| 1) / 2 = d.spi (d.k + 9) % 256 / 2 ∧
    (d.spi (d.k + 9) % 256 ||| 1) % 2 = 1 ∧
    (d.spi (d.k + 13) % 256 ||| 1) / 2 = d.spi (d.k + 13) % 256 / 2 ∧
    (d.spi (d.k + 13) % 256 ||| 1) % 2 = 1 := by
  have ha' : a % 65536 = a := Nat.mod_eq_of_lt ha
  have hpre : modePrelude b a d = [Ev.enLow] ++ txn [0x00, 0x00] ++
      (txn [0x2A, a % 256, a / 256, n % 256, n / 256 % 256, 0xE7] ++ txn [0x01, 0x00] ++
        txn [0x21, d.spi (d.k + 9) % 256 ||| 1] ++ txn [0x02, 0x00] ++
        txn [0x22, d.spi (d.k + 13) % 256 ||| 1]) := by
    rw [modePrelude, hb, if_pos rfl, ackPrelude_stored n a d ha hn]
  have hpay : addrPayload d.addr_prefix a = [a % 256, a / 256, n % 256, n / 256 % 256, 0xE7] := by
    rw [hn, addrPayload_stored n a ha]
  have hp0 : ∀ st, pipe0Switch b st d = [] := fun st => by rw [pipe0Switch, hb, if_pos rfl]
  have f9 := bit0_facts _ (Nat.mod_lt (d.spi (d.k + 9)) (by decide))
  have f13 := bit0_facts _ (Nat.mod_lt (d.spi (d.k + 13)) (by decide))
  refine ⟨?_, f9.2.1, f9.2.2.1, f13.2.1, f13.2.2.1⟩
  by_cases hm : m % 256 = 0
  · by_cases hc : oldModeOf d &&& 1 = 0
    · refine ⟨_, ?_, Or.inr (Or.inl rfl)⟩
      apply emitted_append
      rw [SwitchMode_same_tx b m a d hm hc, ha', hpre, hpay]
    · refine ⟨_, ?_, Or.inr (Or.inr (Or.inl rfl))⟩
      apply emitted_append
      rw [SwitchMode_to_tx b m a d hm hc, ha', hpre, hpay, hp0]
      simp
  · by_cases hc : oldModeOf d &&& 1 = m % 256
    · refine ⟨[], ?_, Or.inl rfl⟩
      apply emitted_append
      rw [SwitchMode_same_rx b m a d hm hc, ha', hpre]
      simp
    · refine ⟨_, ?_, Or.inr (Or.inr (Or.inr rfl))⟩
      apply emitted_append
      rw [SwitchMode_to_rx b m a d hm hc, ha', hpre, hp0]
      simp

/-- Witness for C12: a second call for Receive in the acknowledge build, with
network id 0x1234 and address 0xBEEF, starts with the pipe-0 sequence. -/
theorem SwitchMode_ack_pipe0_witness :
    ∃ rest, emitted rxDev (NRF24L01_SwitchMode ackBuild 1 0xBEEF rxDev) =
      [Ev.enLow] ++ txn [0x00, 0x00] ++
        (txn [0x2A, 0xEF, 0xBE, 0x34, 0x12, 0xE7] ++ txn [0x01, 0x00] ++ txn [0x21, 0x0F] ++
          txn [0x02, 0x00] ++ txn [0x22, 0x0F]) ++ rest :=
  have w := (SwitchMode_ack_pipe0 ackBuild 1 0xBEEF 0x1234 rxDev rfl (by decide) rfl).1
  ⟨w.choose, w.choose_spec.1⟩

theorem SwitchMode_same_rx_en (b : Build) (m a : Nat) (d : Dev)
    (hm : m % 256 ≠ 0) (hc : oldModeOf d &&& 1 = m % 256) :
    (NRF24L01_SwitchMode b m a d).en = false := by
  rw [SwitchMode_same_rx b m a d hm hc]

/-- C15, evaluated where it fails: the device is in receive mode (the config
register reads back 0x0F) with the enable line high; a further
`NRF24L01_SwitchMode(Receive, 0xBEEF)` drives the enable line low, reads the
config register and returns, so the enable line is low at return, in the
build without acknowledge and in the build with it. -/
theorem SwitchMode_receive_again_disables :
    rxDev.en = true ∧ oldModeOf rxDev &&& 1 = 1 ∧
    (NRF24L01_SwitchMode pollBuild 1 0xBEEF rxDev).en = false ∧
    emitted rxDev (NRF24L01_SwitchMode pollBuild 1 0xBEEF rxDev) =
      [Ev.enLow] ++ txn [0x00, 0x00] ∧
    (NRF24L01_SwitchMode ackBuild 1 0xBEEF rxDev).en = false := by
  decide

/-- C16: when the config byte `c` read at the start of `NRF24L01_SwitchMode`
has bit 0 different from the target (0 or 1), the call writes the config
register exactly once: `c AND 0xFE` for Transmit and `c OR 0x01` for Receive,
which keep bits 1..7 of `c` and set bit 0 to the target.  For Transmit the
trace has no enable-high and the enable line is low at return; for Receive
the trace ends with the config write, one flush-RX command and enable-high,
and that flush-RX is the only one. -/
theorem SwitchMode_config_write (b : Build) (m a : Nat) (d : Dev) (c : Nat)
    (hm : m = 0 ∨ m = 1)
    (hc : (_ReadReg NRF24L01_CONFIG_REG (NRF24L01_EN_LOW d)).1 = c)
    (hne : c &&& 1 ≠ m) :
    (m = 0 →
      (transactions (emitted d (NRF24L01_SwitchMode b m a d))).filter
          (fun t => t.head? = some 0x20) = [[0x20, c &&& 0xFE]] ∧
      Ev.enHigh ∉ emitted d (NRF24L01_SwitchMode b m a d) ∧
      (NRF24L01_SwitchMode b m a d).en = false) ∧
    (m = 1 →
      (transactions (emitted d (NRF24L01_SwitchMode b m a d))).filter
          (fun t => t.head? = some 0x20) = [[0x20, c ||| 0x01]] ∧
      (∃ pre, emitted d (NRF24L01_SwitchMode b m a d) =
        pre ++ (txn [0x20, c ||| 0x01] ++ txn [0xE2] ++ [Ev.enHigh])) ∧
      (transactions (emitted d (NRF24L01_SwitchMode b m a d))).count [0xE2] = 1 ∧
      (NRF24L01_SwitchMode b m a d).en = true) ∧
    (c &&& 0xFE) / 2 = c / 2 ∧ (c &&& 0xFE) % 2 = 0 ∧
    (c ||| 0x01) / 2 = c / 2 ∧ (c ||| 0x01) % 2 = 1 := by
  rw [oldModeOf_eq] at hc
  subst hc
  have f := bit0_facts (oldModeOf d) (Nat.mod_lt _ (by decide))
  refine ⟨?_, ?_, f.2.2.2.2.1, f.2.2.2.2.2, f.2.1, f.2.2.1⟩
  · intro h0
    subst h0
    have e := transactions_to_tx b 0 a d rfl hne
    have hE := emitted_append d _ (NRF24L01_SwitchMode b 0 a d)
      (by rw [SwitchMode_to_tx b 0 a d rfl hne])
    refine ⟨?_, ?_, by rw [SwitchMode_to_tx b 0 a d rfl hne]⟩
    · rw [e]
      cases hb : b.USE_ACK <;> simp [List.filter_cons]
    · rw [hE]
      cases hb : b.USE_ACK <;> simp [modePrelude, ackPrelude, pipe0Switch, txn, hb]
  · intro h1
    subst h1
    have e := transactions_to_rx b 1 a d (by decide) hne
    have hE := emitted_append d _ (NRF24L01_SwitchMode b 1 a d)
      (by rw [SwitchMode_to_rx b 1 a d (by decide) hne])
    refine ⟨?_, ⟨modePrelude b (a % 65536) d ++ pipe0Switch b 1 d,
      by rw [hE]; simp only [List.append_assoc]⟩, ?_,
      by rw [SwitchMode_to_rx b 1 a d (by decide) hne]⟩
    · rw [e]
      cases hb : b.USE_ACK <;> simp [List.filter_cons]
    · rw [e]
      cases hb : b.USE_ACK <;> simp [List.count_cons]

/-- Witness for C16: from transmit mode (config 0x0E) a switch to Receive
writes 0x0F to the config register and raises the enable line. -/
theorem SwitchMode_config_write_witness :
    (transactions (emitted txDev (NRF24L01_SwitchMode pollBuild 1 0xBEEF txDev))).filter
        (fun t => t.head? = some 0x20) = [[0x20, 0x0F]] ∧
    (NRF24L01_SwitchMode pollBuild 1 0xBEEF txDev).en = true :=
  have w := (SwitchMode_config_write pollBuild 1 0xBEEF txDev 0x0E (Or.inr rfl) (by decide)
    (by decide)).2.1 rfl
  ⟨w.1, w.2.2.2⟩

theorem pipeBit_onlyBit (p s r : Nat) (hp : p ≤ 5) (hr : r < 256) :
    onlyBit p r (pipeBit p s r) (if s = 0 then 0 else 1) := by
  by_cases hs : s = 0
  · subst hs
    simpa using pipeBit_clear_bits p (by omega) r hr
  · rw [pipeBit_state p s r hs, if_neg hs]
    exact pipeBit_set_bits p (by omega) r hr

theorem transactions_pipeCmd (b : Build) (p s : Nat) (d : Dev) :
    transactions (emitted d (NRF24L01_Rx_PipeCmd b p s d)) =
      (if b.USE_ACK then
          [[0x01, 0x00], [0x21, pipeBit (p % 256) (s % 256) (d.spi (d.k + 1) % 256)]]
        else []) ++
      [[0x02, 0x00],
        [0x22, pipeBit (p % 256) (s % 256)
          (d.spi (d.k + (if b.USE_ACK then 5 else 1)) % 256)]] := by
  cases hb : b.USE_ACK
  · rw [emitted_append d _ (NRF24L01_Rx_PipeCmd b p s d) (by rw [Rx_PipeCmd_noack b hb])]
    simp only [transactions, transAux_txn, transAux_txn_nil]
    rfl
  · rw [emitted_append d _ (NRF24L01_Rx_PipeCmd b p s d) (by rw [Rx_PipeCmd_ack b hb])]
    simp only [transactions, List.append_assoc, transAux_txn, transAux_txn_nil]
    rfl

/-- C17: without acknowledge, a mode change reads the RX-pipe-enable register
(0x02), getting `e`, and writes it back with bit 0 cleared (to Transmit) or
set (to Receive) and bits 1..7 as read; no transaction touches the
auto-acknowledge register (opcodes 0x01 and 0x21).  In every build
`NRF24L01_Rx_PipeCmd(p, state)` with `p ≤ 5` writes back what it read with
only bit `p` changed, to 1 when `state` is non-zero and to 0 otherwise. -/
theorem SwitchMode_pipe0_noack (b : Build) (m a : Nat) (d : Dev) (hb : b.USE_ACK = false)
    (hm : m = 0 ∨ m = 1)
    (hne : (_ReadReg NRF24L01_CONFIG_REG (NRF24L01_EN_LOW d)).1 &&& 1 ≠ m) :
    (m = 0 → transactions (emitted d (NRF24L01_SwitchMode b m a d)) =
      [[0x00, 0x00], [0x02, 0x00], [0x22, d.spi (d.k + 3) % 256 &&& 0xFE],
        0x30 :: addrPayload d.addr_prefix (a % 65536), [0x20, oldModeOf d &&& 0xFE]]) ∧
    (m = 1 → transactions (emitted d (NRF24L01_SwitchMode b m a d)) =
      [[0x00, 0x00], [0x02, 0x00], [0x22, d.spi (d.k + 3) % 256 ||| 0x01],
        [0x20, oldModeOf d ||| 0x01], [0xE2]]) ∧
    onlyBit 0 (d.spi (d.k + 3) % 256) (d.spi (d.k + 3) % 256 &&& 0xFE) 0 ∧
    onlyBit 0 (d.spi (d.k + 3) % 256) (d.spi (d.k + 3) % 256 ||| 0x01) 1 ∧
    (∀ t, t ∈ transactions (emitted d (NRF24L01_SwitchMode b m a d)) →
      t.head? ≠ some 0x01 ∧ t.head? ≠ some 0x21) ∧
    (∀ (b' : Build) (p st : Nat) (d' : Dev), p ≤ 5 → st < 256 →
      transactions (emitted d' (NRF24L01_Rx_PipeCmd b' p st d')) =
        (if b'.USE_ACK then
            [[0x01, 0x00], [0x21, pipeBit p st (d'.spi (d'.k + 1) % 256)]]
          else []) ++
        [[0x02, 0x00],
          [0x22, pipeBit p st (d'.spi (d'.k + (if b'.USE_ACK then 5 else 1)) % 256)]] ∧
      ∀ r, r < 256 → onlyBit p r (pipeBit p st r) (if st = 0 then 0 else 1)) := by
  rw [oldModeOf_eq] at hne
  have f := bit0_facts (d.spi (d.k + 3) % 256) (Nat.mod_lt _ (by decide))
  have eT : m = 0 → transactions (emitted d (NRF24L01_SwitchMode b m a d)) =
      [[0x00, 0x00], [0x02, 0x00], [0x22, d.spi (d.k + 3) % 256 &&& 0xFE],
        0x30 :: addrPayload d.addr_prefix (a % 65536), [0x20, oldModeOf d &&& 0xFE]] := by
    intro h0
    subst h0
    rw [transactions_to_tx b 0 a d rfl hne, f.2.2.2.1]
    simp [hb]
  have eR : m = 1 → transactions (emitted d (NRF24L01_SwitchMode b m a d)) =
      [[0x00, 0x00], [0x02, 0x00], [0x22, d.spi (d.k + 3) % 256 ||| 0x01],
        [0x20, oldModeOf d ||| 0x01], [0xE2]] := by
    intro h1
    subst h1
    rw [transactions_to_rx b 1 a d (by decide) hne, f.1]
    simp [hb]
  refine ⟨eT, eR, ?_, ?_, ?_, ?_⟩
  · exact ⟨by simpa using f.2.2.2.2.1, by simp [Nat.mod_one], by simpa using f.2.2.2.2.2⟩
  · exact ⟨by simpa using f.2.1, by simp [Nat.mod_one], by simp [f.2.2.1]⟩
  · intro t ht
    rcases hm with h0 | h1
    · rw [eT h0] at ht
      simp only [List.mem_cons, List.mem_singleton, List.not_mem_nil, or_false] at ht
      rcases ht with h | h | h | h | h <;> simp [h]
    · rw [eR h1] at ht
      simp only [List.mem_cons, List.mem_singleton, List.not_mem_nil, or_false] at ht
      rcases ht with h | h | h | h | h <;> simp [h]
  · intro b' p st d' hp hst
    refine ⟨?_, fun r hr => pipeBit_onlyBit p st r hp hr⟩
    rw [transactions_pipeCmd, Nat.mod_eq_of_lt (show p < 256 by omega), Nat.mod_eq_of_lt hst]

/-- Witness for C17: from transmit mode, a switch to Receive without
acknowledge reads 0x0E from register 0x02 and writes 0x0F back. -/
theorem SwitchMode_pipe0_noack_witness :
    transactions (emitted txDev (NRF24L01_SwitchMode pollBuild 1 0xBEEF txDev)) =
      [[0x00, 0x00], [0x02, 0x00], [0x22, 0x0F], [0x20, 0x0F], [0xE2]] :=
  (SwitchMode_pipe0_noack pollBuild 1 0xBEEF txDev rfl (Or.inr rfl) (by decide)).2.1 rfl

/-! ## The bus trace of `NRF24L01_Init` -/

theorem initTrace_callback (b : Build) (cfg : InitTypeDef) (cb : Nat → Nat) :
    initTrace b { cfg with writeDataCallBk := cb } = initTrace b cfg := rfl

theorem configByte_bits (b : Build) :
    configByte b &&& 0x08 = 0x08 ∧ configByte b &&& 0x04 = 0x04 ∧
    configByte b &&& 0x02 = 0x02 ∧ configByte b &&& 0x01 = 0 ∧
    configByte b &&& 0x70 = (if b.USE_IT then 0 else 0x70) := by
  unfold configByte
  cases b.USE_IT <;> decide

/-- C18: for every configuration record `NRF24L01_Init` drives select high
and enable low, never raises enable, and then emits exactly the transactions
`(0x20, T)`, `(0x23, 3)`, `(0x21, 0)`, `(0x22, 0)`, `(0x24, retry byte)`,
`(0x25, channelOffset)`, `(0x26, transferSpeed OR transferPower)`,
`(0x31 + i, PACKET_SIZE)` for `i = 0..5`, `0xE2`, `0xE1` and the read of
register 0x00, each data byte reduced to a `uint8_t`; `T` is 0x7E in the
polling build and 0x0E in the interrupt build; the trace is the same whatever
the device answers. -/
theorem Init_bus_trace (b : Build) (cfg : InitTypeDef) (d : Dev) :
    transactions (emitted d (NRF24L01_Init b cfg d).2.2) =
      [[0x20, configByte b], [0x23, 0x03], [0x21, 0x00], [0x22, 0x00],
        [0x24, (cfg.retryDelay % 16) * 16 + cfg.retryTimes % 16],
        [0x25, cfg.channelOffset % 256],
        [0x26, (cfg.transferSpeed ||| cfg.transferPower) % 256]] ++
      (List.range 6).map (fun i => [0x31 + i, b.PACKET_SIZE % 256]) ++
      [[0xE2], [0xE1], [0x00, 0x00]] ∧
    (cfg.channelOffset < 256 → cfg.transferSpeed < 256 → cfg.transferPower < 256 →
      b.PACKET_SIZE ≤ 255 →
      transactions (emitted d (NRF24L01_Init b cfg d).2.2) =
        [[0x20, configByte b], [0x23, 0x03], [0x21, 0x00], [0x22, 0x00],
          [0x24, (cfg.retryDelay % 16) * 16 + cfg.retryTimes % 16],
          [0x25, cfg.channelOffset],
          [0x26, cfg.transferSpeed ||| cfg.transferPower]] ++
        (List.range 6).map (fun i => [0x31 + i, b.PACKET_SIZE]) ++
        [[0xE2], [0xE1], [0x00, 0x00]]) ∧
    configByte b = (if b.USE_IT then 0x0E else 0x7E) ∧
    (configByte b &&& 0x08 = 0x08 ∧ configByte b &&& 0x04 = 0x04 ∧
      configByte b &&& 0x02 = 0x02 ∧ configByte b &&& 0x01 = 0 ∧
      configByte b &&& 0x70 = (if b.USE_IT then 0 else 0x70)) ∧
    (∃ rest, emitted d (NRF24L01_Init b cfg d).2.2 = [Ev.csHigh, Ev.enLow] ++ rest ∧
      Ev.enHigh ∉ rest) ∧
    (NRF24L01_Init b cfg d).2.2.en = false ∧
    (∀ (cb : Nat → Nat) (d2 : Dev),
      emitted d2 (NRF24L01_Init b { cfg with writeDataCallBk := cb } d2).2.2 =
        emitted d (NRF24L01_Init b cfg d).2.2) := by
  have hl : List.range 6 = [0, 1, 2, 3, 4, 5] := by decide
  have e1 : transactions (emitted d (NRF24L01_Init b cfg d).2.2) =
      [[0x20, configByte b], [0x23, 0x03], [0x21, 0x00], [0x22, 0x00],
        [0x24, (cfg.retryDelay % 16) * 16 + cfg.retryTimes % 16],
        [0x25, cfg.channelOffset % 256],
        [0x26, (cfg.transferSpeed ||| cfg.transferPower) % 256]] ++
      (List.range 6).map (fun i => [0x31 + i, b.PACKET_SIZE % 256]) ++
      [[0xE2], [0xE1], [0x00, 0x00]] := by
    rw [Init_emitted, transactions_init, hl]
    rfl
  refine ⟨e1, ?_, rfl, configByte_bits b, ?_, by rw [Init_eq], ?_⟩
  · intro h1 h2 h3 h4
    rw [e1, Nat.mod_eq_of_lt h1, Nat.mod_eq_of_lt (Nat.or_lt_two_pow (n := 8) h2 h3),
      Nat.mod_eq_of_lt (show b.PACKET_SIZE < 256 by omega)]
  · rw [Init_emitted]
    refine ⟨(initTrace b cfg).drop 2, by simp [initTrace], ?_⟩
    simp [initTrace, txn]
  · intro cb d2
    exact (Init_emitted b _ d2).trans
      ((initTrace_callback b cfg cb).trans (Init_emitted b cfg d).symm)

/-- Witness for C18: the sample record, whose fields are bytes, in the small
polling build. -/
theorem Init_bus_trace_witness :
    transactions (emitted (idleDev 0) (NRF24L01_Init pollBuild (sampleConfig 0) (idleDev 0)).2.2) =
      [[0x20, 0x7E], [0x23, 0x03], [0x21, 0x00], [0x22, 0x00], [0x24, 0x59], [0x25, 40],
        [0x26, 0x0F], [0x31, 4], [0x32, 4], [0x33, 4], [0x34, 4], [0x35, 4], [0x36, 4],
        [0xE2], [0xE1], [0x00, 0x00]] :=
  (Init_bus_trace pollBuild (sampleConfig 0) (idleDev 0)).2.1 (by decide) (by decide)
    (by decide) (by decide)

/-! ## Select-line scoping of trace segments -/

theorem scopedAux_bytes (rest : List Ev) :
    ∀ bs : List Nat, scopedAux (some true) (bs.map Ev.tx ++ Ev.csHigh :: rest) =
      scopedAux (some false) rest
  | [] => by simp [scopedAux]
  | x :: bs => by
    rw [List.map_cons, List.cons_append, scopedAux, scopedAux_bytes rest bs]
    simp

theorem Closed_nil : Closed [] := fun st _ h => ⟨st, h, rfl⟩

theorem Closed_append {A B : List Ev} (hA : Closed A) (hB : Closed B) : Closed (A ++ B) := by
  intro st rest h
  obtain ⟨s1, h1, e1⟩ := hA st (B ++ rest) h
  obtain ⟨s2, h2, e2⟩ := hB s1 rest h1
  exact ⟨s2, h2, by rw [List.append_assoc, e1, e2]⟩

theorem Closed_txn (bs : List Nat) : Closed (txn bs) := by
  intro st rest h
  refine ⟨some false, by simp, ?_⟩
  rw [txn, List.cons_append, List.append_assoc, List.singleton_append, scopedAux,
    scopedAux_bytes]
  cases st with
  | none => rfl
  | some v =>
    cases v with
    | true => exact absurd rfl h
    | false => rfl

theorem Closed_enLow : Closed [Ev.enLow] := fun st _ h => ⟨st, h, by cases st <;> rfl⟩

theorem Closed_enHigh : Closed [Ev.enHigh] := fun st _ h => ⟨st, h, by cases st <;> rfl⟩

theorem Closed_pollTrace : ∀ n : Nat, Closed (pollTrace n)
  | 0 => Closed_nil
  | n + 1 => Closed_append (Closed_txn _) (Closed_pollTrace n)

theorem Closed_finishTrace (s : Nat) : Closed (finishTrace s) :=
  Closed_append (Closed_append (Closed_append Closed_enLow (Closed_txn _)) (Closed_txn _))
    (Closed_txn _)

theorem Closed_scoped {E : List Ev} (h : Closed E) : selectScoped E = true := by
  obtain ⟨st', _, e⟩ := h none [] (by simp)
  rw [List.append_nil] at e
  rw [selectScoped, e]
  cases st' <;> rfl

theorem Closed_if (c : Bool) {A B : List Ev} (hA : Closed A) (hB : Closed B) :
    Closed (if c then A else B) := by
  cases c
  · exact hB
  · exact hA

theorem Closed_modePrelude (b : Build) (a : Nat) (d : Dev) : Closed (modePrelude b a d) :=
  Closed_append (Closed_append Closed_enLow (Closed_txn _))
    (Closed_if _ (Closed_append (Closed_append (Closed_append (Closed_append (Closed_txn _)
      (Closed_txn _)) (Closed_txn _)) (Closed_txn _)) (Closed_txn _)) Closed_nil)

theorem Closed_pipe0Switch (b : Build) (st : Nat) (d : Dev) : Closed (pipe0Switch b st d) :=
  Closed_if _ Closed_nil (Closed_append (Closed_txn _) (Closed_txn _))

theorem scoped_after_deassert {T : List Ev} (h : Closed T) :
    selectScoped ([Ev.csHigh, Ev.enLow] ++ T) = true := by
  obtain ⟨st', _, e⟩ := h (some false) [] (by simp)
  rw [List.append_nil] at e
  have e2 : selectScoped ([Ev.csHigh, Ev.enLow] ++ T) = scopedAux (some false) T := rfl
  rw [e2, e]
  cases st' <;> rfl

theorem initTrace_scoped (b : Build) (cfg : InitTypeDef) :
    selectScoped (initTrace b cfg) = true := by
  have hsplit : initTrace b cfg = [Ev.csHigh, Ev.enLow] ++
      (txn [0x20, configByte b] ++ (txn [0x23, 0x03] ++ (txn [0x21, 0x00] ++
      (txn [0x22, 0x00] ++ (txn [0x24, (cfg.retryDelay % 16) * 16 + cfg.retryTimes % 16] ++
      (txn [0x25, cfg.channelOffset % 256] ++
      (txn [0x26, (cfg.transferSpeed ||| cfg.transferPower) % 256] ++
      (txn [0x31, b.PACKET_SIZE % 256] ++ (txn [0x32, b.PACKET_SIZE % 256] ++
      (txn [0x33, b.PACKET_SIZE % 256] ++ (txn [0x34, b.PACKET_SIZE % 256] ++
      (txn [0x35, b.PACKET_SIZE % 256] ++ (txn [0x36, b.PACKET_SIZE % 256] ++
      (txn [0xE2] ++ (txn [0xE1] ++ txn [0x00, 0x00]))))))))))))))) := by
    simp only [initTrace, List.append_assoc]
  rw [hsplit]
  apply scoped_after_deassert
  repeat first
    | exact Closed_txn _
    | apply Closed_append (Closed_txn _)

/-! ## Shape of every returning run of the packet functions -/

theorem txLoop_shape (PS : Nat) (buffer : List Nat) :
    ∀ (fuel tmp : Nat) (d d1 : Dev), txLoop PS buffer fuel tmp d = some d1 →
      ∃ bs : List Nat, d1.trace = d.trace ++ bs.map Ev.tx
  | 0, _, _, _, h => by simp [txLoop] at h
  | fuel + 1, tmp, d, d1, h => by
    rw [txLoop] at h
    split at h
    · obtain ⟨bs, hbs⟩ := txLoop_shape PS buffer fuel _ _ d1 h
      exact ⟨(buffer.getD tmp 0 % 256) :: bs, by rw [hbs]; simp [_spi_write_byte]⟩
    · simp only [Option.some.injEq] at h
      exact ⟨[], by simp [h]⟩

theorem rxLoop_shape (PS : Nat) :
    ∀ (fuel tmp : Nat) (buffer buffer' : List Nat) (d d' : Dev),
      rxLoop PS fuel tmp buffer d = some (buffer', d') →
      ∃ bs : List Nat, d'.trace = d.trace ++ bs.map Ev.tx
  | 0, _, _, _, _, _, h => by simp [rxLoop] at h
  | fuel + 1, tmp, buffer, buffer', d, d', h => by
    rw [rxLoop] at h
    split at h
    · obtain ⟨bs, hbs⟩ := rxLoop_shape PS fuel _ _ buffer' _ d' h
      exact ⟨0 :: bs, by rw [hbs]; simp [_spi_write_byte]⟩
    · simp only [Option.some.injEq, Prod.mk.injEq] at h
      exact ⟨[], by simp [h.2]⟩

theorem waitCond_shape (b : Build) (d : Dev) (hcs : d.cs = true) :
    (waitCond b d).2.cs = true ∧
    ((waitCond b d).2.trace = d.trace ∨ (waitCond b d).2.trace = d.trace ++ txn [0xFF]) := by
  unfold waitCond
  split
  · exact ⟨by simpa [NRF24L01_Check_IT_Flag] using hcs,
      Or.inl (by simp [NRF24L01_Check_IT_Flag])⟩
  · exact ⟨by simp [WriteCmd_eq], Or.inr (by simp [WriteCmd_eq, _CMD_NOP])⟩

theorem waitLoop_shape (b : Build) :
    ∀ (fuel t : Nat) (d d' : Dev) (oc : Option Code), d.cs = true →
      waitLoop b fuel t d = some (oc, d') →
      d'.cs = true ∧ ∃ n,
        (oc = none ∧ d'.trace = d.trace ++ pollTrace n) ∨
        (oc = some Code.TIMEOUT ∧ d'.en = false ∧
          ∃ s, d'.trace = d.trace ++ (pollTrace n ++ finishTrace s))
  | 0, _, _, _, _, _, h => by simp [waitLoop] at h
  | fuel + 1, t, d, d', oc, hcs, h => by
    obtain ⟨hcs1, hw⟩ := waitCond_shape b d hcs
    have hpoll : ∃ k, (waitCond b d).2.trace = d.trace ++ pollTrace k := by
      rcases hw with hw | hw
      · exact ⟨0, by rw [hw]; simp [pollTrace]⟩
      · exact ⟨1, by rw [hw]; simp [pollTrace]⟩
    obtain ⟨k, hk⟩ := hpoll
    have hadd : ∀ n, pollTrace k ++ pollTrace n = pollTrace (k + n) := by
      intro n
      rcases hw with hw | hw
      · have : pollTrace k = [] := by
          have := hk.symm.trans hw
          simpa using this
        have hk0 : k = 0 := by
          cases k with
          | zero => rfl
          | succ j => simp [pollTrace, txn] at this
        subst hk0
        simp [pollTrace]
      · have : pollTrace k = txn [0xFF] := by
          have := hk.symm.trans hw
          simpa using this
        have hk1 : k = 1 := by
          cases k with
          | zero => simp [pollTrace, txn] at this
          | succ j =>
            cases j with
            | zero => rfl
            | succ i =>
              have hl := congrArg List.length this
              simp [pollTrace, txn] at hl
        subst hk1
        rw [show 1 + n = n + 1 by omega]
        simp [pollTrace]
    rw [waitLoop] at h
    simp only [] at h
    split at h
    · split at h
      · simp only [Option.some.injEq, Prod.mk.injEq] at h
        obtain ⟨h1, h2⟩ := h
        subst h1 h2
        refine ⟨by simp [WriteCmd_eq, WriteReg_eq], k, Or.inr ⟨rfl, ?_,
          (waitCond b d).2.spi (waitCond b d).2.k % 256, ?_⟩⟩
        · simp [WriteCmd_eq, WriteReg_eq, NRF24L01_EN_LOW]
        · simp only [WriteCmd_eq, WriteReg_eq, NRF24L01_EN_LOW, hk, finishTrace, _CMD_NOP,
            _CMD_FLUSH_TX, NRF24L01_STATUS_REG, _WR_OFFSET]
          simp
      · obtain ⟨hc', n, hn⟩ := waitLoop_shape b fuel _ _ d' oc hcs1 h
        refine ⟨hc', k + n, ?_⟩
        rcases hn with ⟨e1, e2⟩ | ⟨e1, e2, s, e3⟩
        · exact Or.inl ⟨e1, by rw [e2, hk, List.append_assoc, hadd]⟩
        · exact Or.inr ⟨e1, e2, s, by
            rw [e3, hk, List.append_assoc, ← List.append_assoc (pollTrace k), hadd]⟩
    · simp only [Option.some.injEq, Prod.mk.injEq] at h
      obtain ⟨h1, h2⟩ := h
      subst h1 h2
      exact ⟨hcs1, k, Or.inl ⟨rfl, hk⟩⟩

theorem SendPacket_shape (b : Build) (buffer : List Nat) (fuel : Nat) (d d1 d' : Dev)
    (c : Code) (bs : List Nat)
    (h1 : txLoop b.PACKET_SIZE buffer fuel 0
      (_spi_write_byte _FIFO_WRITE_ADDR (NRF24L01_CS_LOW (NRF24L01_EN_LOW d))).2 = some d1)
    (hbs : d1.trace = (_spi_write_byte _FIFO_WRITE_ADDR
      (NRF24L01_CS_LOW (NRF24L01_EN_LOW d))).2.trace ++ bs.map Ev.tx)
    (h : NRF24L01_SendPacket b buffer fuel d = some (c, d')) :
    d'.cs = true ∧ d'.en = false ∧ ∃ n s,
      d'.trace = d.trace ++ ([Ev.enLow] ++ txn (0xA0 :: bs) ++ [Ev.enHigh] ++ pollTrace n ++
        finishTrace s) := by
  have hload : (NRF24L01_EN_HIGH (NRF24L01_CS_HIGH d1)).trace =
      d.trace ++ ([Ev.enLow] ++ txn (0xA0 :: bs) ++ [Ev.enHigh]) := by
    simp [NRF24L01_EN_HIGH, NRF24L01_CS_HIGH, hbs, _spi_write_byte, NRF24L01_CS_LOW,
      NRF24L01_EN_LOW, txn, _FIFO_WRITE_ADDR]
  unfold NRF24L01_SendPacket at h
  simp only [h1] at h
  split at h
  · simp at h
  · rename_i c2 d2 h2
    simp only [Option.some.injEq, Prod.mk.injEq] at h
    obtain ⟨e1, e2⟩ := h
    subst e1 e2
    obtain ⟨hcs, n, hn⟩ := waitLoop_shape b _ _ _ _ _ (by simp [NRF24L01_EN_HIGH,
      NRF24L01_CS_HIGH]) h2
    rcases hn with ⟨e1, _⟩ | ⟨_, e2, s, e3⟩
    · simp at e1
    · exact ⟨hcs, e2, n, s, by rw [e3, hload]; simp only [List.append_assoc]⟩
  · rename_i d2 h2
    obtain ⟨hcs, n, hn⟩ := waitLoop_shape b _ _ _ _ _ (by simp [NRF24L01_EN_HIGH,
      NRF24L01_CS_HIGH]) h2
    rcases hn with ⟨_, e2⟩ | ⟨e1, _⟩
    · have key : ∀ cc, some (cc,
          (_WriteCmd _CMD_FLUSH_TX (_WriteReg NRF24L01_STATUS_REG
            (_WriteCmd _CMD_NOP (NRF24L01_EN_LOW d2)).1
            (_WriteCmd _CMD_NOP (NRF24L01_EN_LOW d2)).2)).2) = some (c, d') →
          d'.cs = true ∧ d'.en = false ∧ ∃ n s,
            d'.trace = d.trace ++ ([Ev.enLow] ++ txn (0xA0 :: bs) ++ [Ev.enHigh] ++
              pollTrace n ++ finishTrace s) := by
        intro cc hcc
        simp only [Option.some.injEq, Prod.mk.injEq] at hcc
        obtain ⟨_, e⟩ := hcc
        subst e
        refine ⟨by simp [WriteCmd_eq, WriteReg_eq], by simp [WriteCmd_eq, WriteReg_eq,
          NRF24L01_EN_LOW], n, d2.spi d2.k % 256, ?_⟩
        simp only [WriteCmd_eq, WriteReg_eq, NRF24L01_EN_LOW, e2, hload, finishTrace, _CMD_NOP,
          _CMD_FLUSH_TX, NRF24L01_STATUS_REG, _WR_OFFSET]
        simp
      split at h
      · exact key _ h
      · exact key _ h
    · simp at e1

theorem SendPacket_closed (b : Build) (buffer : List Nat) (fuel : Nat) (d d' : Dev)
    (c : Code) (h : NRF24L01_SendPacket b buffer fuel d = some (c, d')) :
    d'.cs = true ∧ d'.en = false ∧ d.trace <+: d'.trace ∧ Closed (emitted d d') := by
  have hex : ∃ d1, txLoop b.PACKET_SIZE buffer fuel 0
      (_spi_write_byte _FIFO_WRITE_ADDR (NRF24L01_CS_LOW (NRF24L01_EN_LOW d))).2 = some d1 := by
    unfold NRF24L01_SendPacket at h
    simp only [] at h
    split at h
    · simp at h
    · exact ⟨_, by assumption⟩
  obtain ⟨d1, h1⟩ := hex
  obtain ⟨bs, hbs⟩ := txLoop_shape _ _ _ _ _ _ h1
  obtain ⟨hcs, hen, n, s, ht⟩ := SendPacket_shape b buffer fuel d d1 d' c bs h1 hbs h
  refine ⟨hcs, hen, ⟨_, ht.symm⟩, ?_⟩
  rw [emitted_append d _ d' ht]
  exact Closed_append (Closed_append (Closed_append (Closed_append Closed_enLow (Closed_txn _))
    Closed_enHigh) (Closed_pollTrace n)) (Closed_finishTrace s)

theorem ReceivePacket_closed (b : Build) (buffer : List Nat) (fuel : Nat) (d : Dev)
    (r : Int × List Nat × Dev) (h : NRF24L01_ReceivePacket b buffer fuel d = some r) :
    r.2.2.cs = true ∧ d.trace <+: r.2.2.trace ∧ Closed (emitted d r.2.2) := by
  by_cases hr : (d.spi d.k % 256) &&& 0x40 = 0
  · rw [ReceivePacket_notReady b buffer fuel d hr] at h
    simp only [Option.some.injEq] at h
    subst h
    refine ⟨rfl, ⟨_, rfl⟩, ?_⟩
    rw [emitted_append d _ _ rfl]
    exact Closed_append (Closed_txn _) (Closed_txn _)
  · by_cases hp : ((d.spi d.k % 256) &&& 0x0E) >>> 1 < 6
    · simp only [NRF24L01_ReceivePacket, WriteCmd_eq, WriteReg_eq, NRF24L01_STATUS_RX_DAT_READY,
        NRF24L01_STATUS_RX_PIPE_NUMBER, ne_eq, hr, not_false_eq_true, if_true, hp] at h
      split at h
      · simp at h
      · rename_i buf' d1 h1
        obtain ⟨bs, hbs⟩ := rxLoop_shape _ _ _ _ _ _ _ h1
        simp only [Option.some.injEq] at h
        subst h
        have ht : (NRF24L01_CS_HIGH d1).trace ++ txn [_CMD_FLUSH_RX % 256] = d.trace ++
            (txn [0xFF] ++ txn [0x27, d.spi d.k % 256] ++ txn (0x61 :: bs) ++ txn [0xE2]) := by
          simp [NRF24L01_CS_HIGH, hbs, _spi_write_byte, NRF24L01_CS_LOW, txn, _CMD_NOP,
            NRF24L01_STATUS_REG, _WR_OFFSET, _FIFO_READ_ADDR, _CMD_FLUSH_RX]
        refine ⟨rfl, ⟨_, ht.symm⟩, ?_⟩
        rw [emitted_append d _ _ ht]
        exact Closed_append (Closed_append (Closed_append (Closed_txn _) (Closed_txn _))
          (Closed_txn _)) (Closed_txn _)
    · rw [ReceivePacket_badPipe b buffer fuel d hr (by omega)] at h
      simp only [Option.some.injEq] at h
      subst h
      refine ⟨rfl, ⟨_, rfl⟩, ?_⟩
      rw [emitted_append d _ _ rfl]
      exact Closed_append (Closed_append (Closed_txn _) (Closed_txn _)) (Closed_txn _)

/-! ## Select-line scoping of every public operation -/

theorem SwitchMode_closed (b : Build) (m a : Nat) (d : Dev) :
    (NRF24L01_SwitchMode b m a d).cs = true ∧
    Closed (emitted d (NRF24L01_SwitchMode b m a d)) := by
  by_cases hm : m % 256 = 0
  · by_cases hc : oldModeOf d &&& 1 = 0
    · have e := SwitchMode_same_tx b m a d hm hc
      refine ⟨by rw [e], ?_⟩
      rw [emitted_append d _ (NRF24L01_SwitchMode b m a d) (by rw [e])]
      exact Closed_append (Closed_modePrelude _ _ _) (Closed_txn _)
    · have e := SwitchMode_to_tx b m a d hm hc
      refine ⟨by rw [e], ?_⟩
      rw [emitted_append d _ (NRF24L01_SwitchMode b m a d) (by rw [e])]
      exact Closed_append (Closed_append (Closed_append (Closed_modePrelude _ _ _)
        (Closed_pipe0Switch _ _ _)) (Closed_txn _)) (Closed_txn _)
  · by_cases hc : oldModeOf d &&& 1 = m % 256
    · have e := SwitchMode_same_rx b m a d hm hc
      refine ⟨by rw [e], ?_⟩
      rw [emitted_append d _ (NRF24L01_SwitchMode b m a d) (by rw [e])]
      exact Closed_modePrelude _ _ _
    · have e := SwitchMode_to_rx b m a d hm hc
      refine ⟨by rw [e], ?_⟩
      rw [emitted_append d _ (NRF24L01_SwitchMode b m a d) (by rw [e])]
      exact Closed_append (Closed_append (Closed_append (Closed_append
        (Closed_modePrelude _ _ _) (Closed_pipe0Switch _ _ _)) (Closed_txn _)) (Closed_txn _))
        Closed_enHigh

theorem Rx_PipeCmd_closed (b : Build) (p st : Nat) (d : Dev) :
    (NRF24L01_Rx_PipeCmd b p st d).cs = true ∧
    Closed (emitted d (NRF24L01_Rx_PipeCmd b p st d)) := by
  cases hb : b.USE_ACK
  · have e := Rx_PipeCmd_noack b hb p st d
    refine ⟨by rw [e], ?_⟩
    rw [emitted_append d _ (NRF24L01_Rx_PipeCmd b p st d) (by rw [e])]
    exact Closed_append (Closed_txn _) (Closed_txn _)
  · have e := Rx_PipeCmd_ack b hb p st d
    refine ⟨by rw [e], ?_⟩
    rw [emitted_append d _ (NRF24L01_Rx_PipeCmd b p st d) (by rw [e])]
    exact Closed_append (Closed_append (Closed_append (Closed_txn _) (Closed_txn _))
      (Closed_txn _)) (Closed_txn _)

theorem Rx_SetPipeAddr_closed (p a : Nat) (d : Dev) :
    (NRF24L01_Rx_SetPipeAddr p a d).cs = true ∧
    Closed (emitted d (NRF24L01_Rx_SetPipeAddr p a d)) := by
  by_cases hp : p % 256 < 2
  · have e := Rx_SetPipeAddr_low p a d hp
    refine ⟨by rw [e], ?_⟩
    rw [emitted_append d _ (NRF24L01_Rx_SetPipeAddr p a d) (by rw [e])]
    exact Closed_txn _
  · have e := Rx_SetPipeAddr_high p a d hp
    refine ⟨by rw [e], ?_⟩
    rw [emitted_append d _ (NRF24L01_Rx_SetPipeAddr p a d) (by rw [e])]
    exact Closed_txn _

theorem Tx_SetTargetAddr_closed (a : Nat) (d : Dev) :
    (NRF24L01_Tx_SetTargetAddr a d).cs = true ∧
    Closed (emitted d (NRF24L01_Tx_SetTargetAddr a d)) := by
  have e := Tx_SetTargetAddr_eq a d
  refine ⟨by rw [e], ?_⟩
  rw [emitted_append d _ (NRF24L01_Tx_SetTargetAddr a d) (by rw [e])]
  exact Closed_txn _

theorem GetRSSI_closed (d : Dev) :
    (NRF24L01_GetRSSI d).2.cs = true ∧ Closed (emitted d (NRF24L01_GetRSSI d).2) := by
  have e : NRF24L01_GetRSSI d = _ := ReadReg_eq NRF24L01_SIGNAL_STRENGTH_REG d
  refine ⟨by rw [e], ?_⟩
  rw [emitted_append d _ (NRF24L01_GetRSSI d).2 (by rw [e])]
  exact Closed_txn _

/-- C14: in the trace of a run of each public operation every byte goes out
after a select-low with no select-high in between, select-low and select-high
events alternate, and the select line is high at return.  This covers every
path of `NRF24L01_SwitchMode`, the early same-mode return included, and every
returning run of `NRF24L01_SendPacket` and `NRF24L01_ReceivePacket`, the
Timeout return included.  The trace of `NRF24L01_Init` starts with a
select-high; all other traces start their select events with a select-low. -/
theorem select_scoping :
    (∀ (b : Build) (cfg : InitTypeDef) (d : Dev),
      selectScoped (emitted d (NRF24L01_Init b cfg d).2.2) = true ∧
      (NRF24L01_Init b cfg d).2.2.cs = true ∧
      (emitted d (NRF24L01_Init b cfg d).2.2).head? = some Ev.csHigh) ∧
    (∀ d : Dev, selectScoped (emitted d (NRF24L01_GetRSSI d).2) = true ∧
      (NRF24L01_GetRSSI d).2.cs = true) ∧
    (∀ (a : Nat) (d : Dev), selectScoped (emitted d (NRF24L01_Tx_SetTargetAddr a d)) = true ∧
      (NRF24L01_Tx_SetTargetAddr a d).cs = true) ∧
    (∀ (p a : Nat) (d : Dev),
      selectScoped (emitted d (NRF24L01_Rx_SetPipeAddr p a d)) = true ∧
      (NRF24L01_Rx_SetPipeAddr p a d).cs = true) ∧
    (∀ (b : Build) (p st : Nat) (d : Dev),
      selectScoped (emitted d (NRF24L01_Rx_PipeCmd b p st d)) = true ∧
      (NRF24L01_Rx_PipeCmd b p st d).cs = true) ∧
    (∀ (b : Build) (m a : Nat) (d : Dev),
      selectScoped (emitted d (NRF24L01_SwitchMode b m a d)) = true ∧
      (NRF24L01_SwitchMode b m a d).cs = true) ∧
    (∀ (b : Build) (buffer : List Nat) (fuel : Nat) (d d' : Dev) (c : Code),
      NRF24L01_SendPacket b buffer fuel d = some (c, d') →
      selectScoped (emitted d d') = true ∧ d'.cs = true) ∧
    (∀ (b : Build) (buffer buffer' : List Nat) (fuel : Nat) (d d' : Dev) (r : Int),
      NRF24L01_ReceivePacket b buffer fuel d = some (r, buffer', d') →
      selectScoped (emitted d d') = true ∧ d'.cs = true) := by
  refine ⟨?_, ?_, ?_, ?_, ?_, ?_, ?_, ?_⟩
  · intro b cfg d
    refine ⟨by rw [Init_emitted]; exact initTrace_scoped b cfg, by rw [Init_eq], ?_⟩
    rw [Init_emitted]
    rfl
  · exact fun d => ⟨Closed_scoped (GetRSSI_closed d).2, (GetRSSI_closed d).1⟩
  · exact fun a d => ⟨Closed_scoped (Tx_SetTargetAddr_closed a d).2,
      (Tx_SetTargetAddr_closed a d).1⟩
  · exact fun p a d => ⟨Closed_scoped (Rx_SetPipeAddr_closed p a d).2,
      (Rx_SetPipeAddr_closed p a d).1⟩
  · exact fun b p st d => ⟨Closed_scoped (Rx_PipeCmd_closed b p st d).2,
      (Rx_PipeCmd_closed b p st d).1⟩
  · exact fun b m a d => ⟨Closed_scoped (SwitchMode_closed b m a d).2,
      (SwitchMode_closed b m a d).1⟩
  · intro b buffer fuel d d' c h
    obtain ⟨h1, _, _, h4⟩ := SendPacket_closed b buffer fuel d d' c h
    exact ⟨Closed_scoped h4, h1⟩
  · intro b buffer buffer' fuel d d' r h
    obtain ⟨h1, _, h3⟩ := ReceivePacket_closed b buffer fuel d _ h
    exact ⟨Closed_scoped h3, h1⟩

/-- Witness for C14: a send that returns early with Timeout, and a mode
switch that returns early because the mode is already Receive. -/
theorem select_scoping_witness :
    (NRF24L01_SendPacket pollBuild [1, 2, 3, 4] 5 (idleDev 0)).map
        (fun r => (r.1, selectScoped (emitted (idleDev 0) r.2), r.2.cs)) =
      some (Code.TIMEOUT, true, true) ∧
    selectScoped (emitted rxDev (NRF24L01_SwitchMode pollBuild 1 0xBEEF rxDev)) = true ∧
    (NRF24L01_SwitchMode pollBuild 1 0xBEEF rxDev).cs = true := by
  have hS : ∃ d', NRF24L01_SendPacket pollBuild [1, 2, 3, 4] 5 (idleDev 0) =
      some (Code.TIMEOUT, d') := ⟨_, rfl⟩
  obtain ⟨d', hS⟩ := hS
  have wS := select_scoping.2.2.2.2.2.2.1 pollBuild [1, 2, 3, 4] 5 (idleDev 0) d' _ hS
  have wM := select_scoping.2.2.2.2.2.1 pollBuild 1 0xBEEF rxDev
  refine ⟨?_, wM.1, wM.2⟩
  rw [hS]
  simp [wS.1, wS.2]

/-! ## The load phase of `NRF24L01_SendPacket` -/

theorem payload_bytes (buffer : List Nat) (hb : ∀ x, x ∈ buffer → x < 256) :
    (List.range' 0 buffer.length).map (fun i => buffer.getD i 0 % 256) = buffer := by
  apply List.ext_getElem
  · simp
  · intro i h1 h2
    have hi : i < buffer.length := h2
    simp only [List.getElem_map, List.getElem_range', Nat.zero_add, Nat.one_mul]
    rw [List.getD_eq_getElem _ _ hi]
    exact Nat.mod_eq_of_lt (hb _ (List.getElem_mem _))

theorem SendPacket_returns (b : Build) (buffer : List Nat) (fuel : Nat) (d : Dev)
    (hIT : b.USE_IT = false) (h1 : 1 ≤ b.MAX_TIMEOUT) (h2 : b.MAX_TIMEOUT ≤ 65535)
    (hPS : b.PACKET_SIZE ≤ 255) (hf : b.PACKET_SIZE < fuel) (hfm : b.MAX_TIMEOUT ≤ fuel) :
    ∃ c d', NRF24L01_SendPacket b buffer fuel d = some (c, d') := by
  by_cases h : ∃ i, i < b.MAX_TIMEOUT ∧ pollStatus b d i &&& 0x30 ≠ 0
  · have hlt := (Nat.find_spec h).1
    have hx := (Nat.find_spec h).2
    have hz : ∀ j, j < Nat.find h → pollStatus b d j &&& 0x30 = 0 := fun j hj => by
      have := Nat.find_min h hj
      by_contra hc
      exact this ⟨by omega, hc⟩
    exact ⟨_, _, SendPacket_exit b buffer fuel d (Nat.find h) hIT hPS hf (by omega)
      (fun j hj => by omega) hz hx⟩
  · have hz : ∀ j, j < b.MAX_TIMEOUT → pollStatus b d j &&& 0x30 = 0 := fun j hj => by
      by_contra hc
      exact h ⟨j, hj, hc⟩
    exact ⟨_, _, SendPacket_timeout_max b buffer fuel d hIT h1 h2 hPS hf hfm hz⟩

/-- C19: for a buffer of `PACKET_SIZE` bytes, `NRF24L01_SendPacket` first emits
enable-low, then one transaction made of the opcode 0xA0 and the buffer bytes
in index order, then enable-high, and only then enters the wait loop; every
returning run consists of this load, the status polls and the clean-up, and
its only transaction with opcode 0xA0 is the load; in the polling build with
`1 ≤ MAX_TIMEOUT ≤ 65535` the call does return.  The packet size is assumed
to fit the `uint8_t` loop counter. -/
theorem SendPacket_load (b : Build) (buffer : List Nat) (fuel : Nat) (d : Dev)
    (hPS : b.PACKET_SIZE ≤ 255) (hf : b.PACKET_SIZE < fuel)
    (hlen : buffer.length = b.PACKET_SIZE) (hbytes : ∀ x, x ∈ buffer → x < 256) :
    (∃ d1, txLoop b.PACKET_SIZE buffer fuel 0
        (_spi_write_byte _FIFO_WRITE_ADDR (NRF24L01_CS_LOW (NRF24L01_EN_LOW d))).2 = some d1 ∧
      (NRF24L01_EN_HIGH (NRF24L01_CS_HIGH d1)).trace =
        d.trace ++ ([Ev.enLow] ++ txn (0xA0 :: buffer) ++ [Ev.enHigh])) ∧
    (∀ (c : Code) (d' : Dev), NRF24L01_SendPacket b buffer fuel d = some (c, d') →
      ∃ n s, emitted d d' =
          [Ev.enLow] ++ txn (0xA0 :: buffer) ++ [Ev.enHigh] ++ pollTrace n ++ finishTrace s ∧
        (transactions (emitted d d')).filter (fun t => t.head? = some 0xA0) =
          [0xA0 :: buffer]) ∧
    (b.USE_IT = false → 1 ≤ b.MAX_TIMEOUT → b.MAX_TIMEOUT ≤ 65535 → b.MAX_TIMEOUT ≤ fuel →
      ∃ c d', NRF24L01_SendPacket b buffer fuel d = some (c, d')) := by
  have hpay : (List.range' 0 b.PACKET_SIZE).map (fun i => buffer.getD i 0 % 256) = buffer := by
    rw [← hlen]; exact payload_bytes buffer hbytes
  have h1 := txLoop_eq b.PACKET_SIZE buffer hPS b.PACKET_SIZE fuel 0
    (_spi_write_byte _FIFO_WRITE_ADDR (NRF24L01_CS_LOW (NRF24L01_EN_LOW d))).2 (by omega) hf
  have hmap : (List.range' 0 b.PACKET_SIZE).map (fun i => Ev.tx (buffer.getD i 0 % 256)) =
      buffer.map Ev.tx := by
    rw [← hpay, List.map_map]
    simp only [hpay]
    rfl
  rw [hmap] at h1
  refine ⟨⟨_, h1, ?_⟩, ?_, ?_⟩
  · simp [NRF24L01_EN_HIGH, NRF24L01_CS_HIGH, _spi_write_byte, NRF24L01_CS_LOW,
      NRF24L01_EN_LOW, txn, _FIFO_WRITE_ADDR]
  · intro c d' h
    obtain ⟨_, _, n, s, ht⟩ := SendPacket_shape b buffer fuel d _ d' c buffer h1 rfl h
    refine ⟨n, s, emitted_append d _ d' ht, ?_⟩
    rw [emitted_append d _ d' ht]
    have e : [Ev.enLow] ++ txn (0xA0 :: buffer) ++ [Ev.enHigh] ++ pollTrace n ++
        finishTrace s =
        loadTrace b buffer ++ pollTrace n ++ finishTrace s := by
      rw [loadTrace, hpay]
    rw [e, transactions_send, hpay]
    simp [List.filter_cons, List.filter_append, List.filter_replicate]
  · intro hIT hm1 hm2 hfm
    exact SendPacket_returns b buffer fuel d hIT hm1 hm2 hPS hf hfm

/-- Witness for C19: the buffer `[1, 2, 3, 4]` is sent as `[0xA0, 1, 2, 3, 4]`,
the only FIFO-write transaction of the run. -/
theorem SendPacket_load_witness :
    (NRF24L01_SendPacket pollBuild [1, 2, 3, 4] 5 (idleDev 0)).map
        (fun r => (transactions (emitted (idleDev 0) r.2)).filter
          (fun t => t.head? = some 0xA0)) = some [[0xA0, 1, 2, 3, 4]] := by
  have w := SendPacket_load pollBuild [1, 2, 3, 4] 5 (idleDev 0) (by decide) (by decide) rfl
    (by decide)
  obtain ⟨c, d', h⟩ := w.2.2 rfl (by decide) (by decide) (by decide)
  obtain ⟨n, s, _, hfil⟩ := w.2.1 c d' h
  rw [h]
  simp [hfil]

end NRF24L01
